import Mathlib

/-!
# kubestack: the service dispatcher and the client stub

A shallow embedding of `pkg/kubestack/kubestack.go` (the dispatcher `KubeHandler`),
of `client/kubestackclient.go` (the stub `NeutronProvider`) and of the older stub in
`kubestackclient.go` at the root (under `RootClient`).

* A Go `error` is `Option GoError`: `none` is `nil`, `some e` carries the message
  that `e.Error()` returns.
* A Go pointer to a message is an `Option`; reading a field through a nil pointer
  panics, which is the `Outcome.panicked` result.
* The driver behind the dispatcher and the transport behind the stub are parameters.
  Every function returns, next to its result, the list of calls it made on them, in
  order.
-/

namespace Kubestack

/-! ## Go values -/

/-- A non-nil Go error value; `msg` is what its `Error()` method returns. -/
structure GoError where
  msg : String
  deriving DecidableEq, Repr

/-- The Go interface type `error`: `none` is `nil`. -/
abbrev error := Option GoError

/-- The method `Error()` of a non-nil error. -/
def GoError.Error (e : GoError) : String := e.msg

/-- The library function `errors.New`. -/
def errors.New (text : String) : GoError := ⟨text⟩

/-- How a Go function call ends: it returns a value, or it panics on a nil pointer
dereference. -/
inductive Outcome (α : Type) where
  | returned (a : α)
  | panicked
  deriving DecidableEq, Repr

/-- One execution of a function: the calls it made on its collaborator (driver methods
for the dispatcher, remote methods for the stub), oldest first, and how it ended. -/
structure Run (κ α : Type) where
  calls : List κ
  out : Outcome α

/-! ## Resource model (package `types`) -/

/-- Modelled from the spec: the message `types.Subnet` (the generated package `types` is
not among the sources). Fields of section 3: identity, owning network, CIDR, gateway,
owning tenant; `Tenantid` is spelled as the dispatcher spells it. -/
structure Subnet where
  Uid : String := ""
  Name : String := ""
  NetworkID : String := ""
  Cidr : String := ""
  Gateway : String := ""
  Tenantid : String := ""
  deriving DecidableEq, Repr

/-- Modelled from the spec: the message `types.Network`: identity, owning tenant and the
ordered collection of its subnets. -/
structure Network where
  Uid : String := ""
  Name : String := ""
  TenantID : String := ""
  Subnets : List Subnet := []
  deriving DecidableEq, Repr

/-- Modelled from the spec: the message `types.FloatingIp`: identity, address, owning
tenant and the port it is bound to (empty when unbound). -/
structure FloatingIp where
  Id : String := ""
  FloatingIpAddress : String := ""
  TenantID : String := ""
  PortId : String := ""
  deriving DecidableEq, Repr

/-- Modelled from the spec: the message `types.LoadBalancer`: identity, owning tenant,
member hosts, external addresses and the resulting virtual address. -/
structure LoadBalancer where
  Name : String := ""
  TenantID : String := ""
  Hosts : List String := []
  ExternalIPs : List String := []
  Vip : String := ""
  deriving DecidableEq, Repr

/-- Modelled from the spec: the type of the two fields of `ConnectSubnetsRequest`, which
the dispatcher only forwards to the driver. -/
abbrev SubnetRef := String

/-! ## Request messages

The fields are the ones the source reads or writes; a Go struct literal that leaves a
field out gives it its zero value, which is the default here. -/

structure ActiveRequest where
  deriving DecidableEq, Repr

structure CheckTenantIDRequest where
  TenantID : String := ""
  deriving DecidableEq, Repr

structure GetNetworkRequest where
  Id : String := ""
  Name : String := ""
  deriving DecidableEq, Repr

structure CreateNetworkRequest where
  Network : Option Network := none
  deriving DecidableEq, Repr

structure UpdateNetworkRequest where
  Network : Option Network := none
  deriving DecidableEq, Repr

structure DeleteNetworkRequest where
  NetworkID : String := ""
  deriving DecidableEq, Repr

structure ListNetworkRequest where
  TenantID : String := ""
  deriving DecidableEq, Repr

structure ListSubnetsRequest where
  NetworkID : String := ""
  deriving DecidableEq, Repr

structure CreateSubnetRequest where
  Subnet : Option Subnet := none
  deriving DecidableEq, Repr

structure GetSubnetRequest where
  SubnetID : String := ""
  deriving DecidableEq, Repr

structure DeleteSubnetRequest where
  SubnetID : String := ""
  NetworkID : String := ""
  deriving DecidableEq, Repr

structure UpdateSubnetRequest where
  Subnet : Option Subnet := none
  deriving DecidableEq, Repr

structure ConnectSubnetsRequest where
  Subnet1 : SubnetRef := ""
  Subnet2 : SubnetRef := ""
  deriving DecidableEq, Repr

structure GetLoadBalancerRequest where
  Name : String := ""
  deriving DecidableEq, Repr

structure CreateLoadBalancerRequest where
  LoadBalancer : Option LoadBalancer := none
  Affinity : String := ""
  deriving DecidableEq, Repr

structure UpdateLoadBalancerRequest where
  Name : String := ""
  Hosts : List String := []
  ExternalIPs : List String := []
  deriving DecidableEq, Repr

structure DeleteLoadBalancerRequest where
  Name : String := ""
  deriving DecidableEq, Repr

structure SetupPodRequest where
  PodName : String := ""
  Namespace : String := ""
  PodInfraContainerID : String := ""
  ContainerRuntime : String := ""
  Network : Option Network := none
  SubnetID : String := ""
  deriving DecidableEq, Repr

structure TeardownPodRequest where
  PodName : String := ""
  Namespace : String := ""
  PodInfraContainerID : String := ""
  ContainerRuntime : String := ""
  Network : Option Network := none
  deriving DecidableEq, Repr

structure PodStatusRequest where
  PodName : String := ""
  Namespace : String := ""
  PodInfraContainerID : String := ""
  ContainerRuntime : String := ""
  Network : Option Network := none
  deriving DecidableEq, Repr

structure CreateFloatingIpRequest where
  TenantID : String := ""
  deriving DecidableEq, Repr

structure BindFloatingIpRequest where
  PortId : String := ""
  FloatingipId : String := ""
  deriving DecidableEq, Repr

structure BindPortToExternalRequest where
  PortName : String := ""
  TenantID : String := ""
  deriving DecidableEq, Repr

structure UnbindPortFromExternalRequest where
  PortName : String := ""
  deriving DecidableEq, Repr

structure DelFloatingIpRequest where
  FloatingipId : String := ""
  deriving DecidableEq, Repr

structure ListFloatingIpsRequest where
  FloatingNetworkID : String := ""
  deriving DecidableEq, Repr

/-! ## Response messages

Every response but `ActivateResponse` carries the in-band `Error` string; the slice
fields are lists, the nil slice being the empty list. -/

structure ActivateResponse where
  Result : Bool := false
  deriving DecidableEq, Repr

structure CheckTenantIDResponse where
  Result : Bool := false
  Error : String := ""
  deriving DecidableEq, Repr

structure GetNetworkResponse where
  Network : Option Network := none
  Error : String := ""
  deriving DecidableEq, Repr

structure CommonResponse where
  Error : String := ""
  deriving DecidableEq, Repr

structure ListNetworkResponse where
  Networks : List Network := []
  Error : String := ""
  deriving DecidableEq, Repr

structure ListSubnetsResponse where
  Subnets : List Subnet := []
  Error : String := ""
  deriving DecidableEq, Repr

structure GetSubnetResponse where
  Subnet : Option Subnet := none
  Error : String := ""
  deriving DecidableEq, Repr

structure GetLoadBalancerResponse where
  LoadBalancer : Option LoadBalancer := none
  Error : String := ""
  deriving DecidableEq, Repr

structure CreateLoadBalancerResponse where
  Vip : String := ""
  Error : String := ""
  deriving DecidableEq, Repr

structure UpdateLoadBalancerResponse where
  Vip : String := ""
  Error : String := ""
  deriving DecidableEq, Repr

structure PodStatusResponse where
  Ip : String := ""
  Error : String := ""
  deriving DecidableEq, Repr

structure CreateFloatingIpResponse where
  FloatingIp : Option FloatingIp := none
  Error : String := ""
  deriving DecidableEq, Repr

structure BindPortToExternalResponse where
  Floatingip : String := ""
  Error : String := ""
  deriving DecidableEq, Repr

structure ListFloatingIpsResponse where
  Floatings : List FloatingIp := []
  Error : String := ""
  deriving DecidableEq, Repr

/-! ## The driver behind the dispatcher -/

/-- Modelled from the spec: the driver type `common.OpenStack`, which is not among the
sources. Its methods are parameters, with the signatures of the dispatcher's call sites
(the capability groups of section 4.1). A method maps its arguments to the outcome the
backend gives for them: the result and the Go `error`. -/
structure Driver where
  CheckTenantID : String → Bool × error
  ToTenantID : String → String
  GetNetworkByID : String → Option Network × error
  GetNetwork : String → Option Network × error
  CreateNetwork : Option Network → error
  UpdateNetwork : Option Network → error
  DeleteNetwork : String → error
  ListNetworks : String → List Network × error
  ListSubnets : String → List Subnet × error
  CreateSubnet : Option Subnet → error
  GetSubnet : String → Option Subnet × error
  DeleteSubnet : String → String → error
  UpdateSubnet : Option Subnet → error
  ConnectSubnets : SubnetRef → SubnetRef → error
  GetLoadBalancer : String → Option LoadBalancer × error
  CreateLoadBalancer : Option LoadBalancer → String → String × error
  UpdateLoadBalancer : String → List String → List String → String × error
  DeleteLoadBalancer : String → error
  SetupPod : String → String → String → Option Network → String → String → error
  TeardownPod : String → String → String → Option Network → String → error
  PodStatus : String → String → String → Option Network → String → String × error

/-- A call of a driver method, with the arguments it received. -/
inductive DriverCall where
  | CheckTenantID (tenantID : String)
  | ToTenantID (raw : String)
  | GetNetworkByID (networkID : String)
  | GetNetwork (networkName : String)
  | CreateNetwork (network : Option Network)
  | UpdateNetwork (network : Option Network)
  | DeleteNetwork (networkID : String)
  | ListNetworks (tenantID : String)
  | ListSubnets (networkID : String)
  | CreateSubnet (subnet : Option Subnet)
  | GetSubnet (subnetID : String)
  | DeleteSubnet (subnetID networkID : String)
  | UpdateSubnet (subnet : Option Subnet)
  | ConnectSubnets (subnet1 subnet2 : SubnetRef)
  | GetLoadBalancer (name : String)
  | CreateLoadBalancer (lb : Option LoadBalancer) (affinity : String)
  | UpdateLoadBalancer (name : String) (hosts externalIPs : List String)
  | DeleteLoadBalancer (name : String)
  | SetupPod (podName ns podInfraContainerID : String) (network : Option Network)
      (containerRuntime subnetID : String)
  | TeardownPod (podName ns podInfraContainerID : String) (network : Option Network)
      (containerRuntime : String)
  | PodStatus (podName ns podInfraContainerID : String) (network : Option Network)
      (containerRuntime : String)
  deriving DecidableEq, Repr

/-! ## The dispatcher (`pkg/kubestack/kubestack.go`)

A handler receives a non-nil request (the RPC server hands it the decoded message) and
returns the pair `(response, error)` of the Go function. The log statements only format
the request or the response and are left out. -/

/-- The request handler; `server` of the Go struct is the listener and is left out. -/
structure KubeHandler where
  driver : Driver

/-- `KubeHandler.Active`. -/
def KubeHandler.Active (_h : KubeHandler) (_req : ActiveRequest) :
    Run DriverCall (ActivateResponse × error) :=
  let resp : ActivateResponse := { Result := true }
  ⟨[], .returned (resp, none)⟩

/-- `KubeHandler.CheckTenantID`. -/
def KubeHandler.CheckTenantID (h : KubeHandler) (req : CheckTenantIDRequest) :
    Run DriverCall (CheckTenantIDResponse × error) :=
  let resp : CheckTenantIDResponse := {}
  let r := h.driver.CheckTenantID req.TenantID
  let resp : CheckTenantIDResponse :=
    match r.2 with
    | some err => { resp with Error := err.Error }
    | none => { resp with Result := r.1 }
  ⟨[.CheckTenantID req.TenantID], .returned (resp, none)⟩

/-- `KubeHandler.GetNetwork`: by id when `Id` is set, else by name when `Name` is set,
else no lookup at all (`result` and `err` keep their zero values). -/
def KubeHandler.GetNetwork (h : KubeHandler) (req : GetNetworkRequest) :
    Run DriverCall (GetNetworkResponse × error) :=
  let resp : GetNetworkResponse := {}
  let lookup : List DriverCall × (Option Network × error) :=
    if req.Id ≠ "" then
      ([.GetNetworkByID req.Id], h.driver.GetNetworkByID req.Id)
    else if req.Name ≠ "" then
      ([.GetNetwork req.Name], h.driver.GetNetwork req.Name)
    else
      ([], (none, none))
  let resp : GetNetworkResponse :=
    match lookup.2.2 with
    | some err => { resp with Error := err.Error }
    | none => { resp with Network := lookup.2.1 }
  ⟨lookup.1, .returned (resp, none)⟩

/-- `KubeHandler.CreateNetwork`: reading `req.Network.TenantID` panics on a nil
`Network`; otherwise the tenant is rewritten in place and the network handed on. -/
def KubeHandler.CreateNetwork (h : KubeHandler) (req : CreateNetworkRequest) :
    Run DriverCall (CommonResponse × error) :=
  let resp : CommonResponse := {}
  match req.Network with
  | none => ⟨[], .panicked⟩
  | some network =>
    let network' : Network := { network with TenantID := h.driver.ToTenantID network.TenantID }
    let resp : CommonResponse :=
      match h.driver.CreateNetwork (some network') with
      | some err => { resp with Error := err.Error }
      | none => resp
    ⟨[.ToTenantID network.TenantID, .CreateNetwork (some network')], .returned (resp, none)⟩

/-- `KubeHandler.UpdateNetwork`. -/
def KubeHandler.UpdateNetwork (h : KubeHandler) (req : UpdateNetworkRequest) :
    Run DriverCall (CommonResponse × error) :=
  let resp : CommonResponse := {}
  match req.Network with
  | none => ⟨[], .panicked⟩
  | some network =>
    let network' : Network := { network with TenantID := h.driver.ToTenantID network.TenantID }
    let resp : CommonResponse :=
      match h.driver.UpdateNetwork (some network') with
      | some err => { resp with Error := err.Error }
      | none => resp
    ⟨[.ToTenantID network.TenantID, .UpdateNetwork (some network')], .returned (resp, none)⟩

/-- `KubeHandler.DeleteNetwork`. -/
def KubeHandler.DeleteNetwork (h : KubeHandler) (req : DeleteNetworkRequest) :
    Run DriverCall (CommonResponse × error) :=
  let resp : CommonResponse := {}
  let resp : CommonResponse :=
    match h.driver.DeleteNetwork req.NetworkID with
    | some err => { resp with Error := err.Error }
    | none => resp
  ⟨[.DeleteNetwork req.NetworkID], .returned (resp, none)⟩

/-- `KubeHandler.ListNetworks`. -/
def KubeHandler.ListNetworks (h : KubeHandler) (req : ListNetworkRequest) :
    Run DriverCall (ListNetworkResponse × error) :=
  let resp : ListNetworkResponse := {}
  let r := h.driver.ListNetworks req.TenantID
  let resp : ListNetworkResponse :=
    match r.2 with
    | some err => { resp with Error := err.Error }
    | none => { resp with Networks := r.1 }
  ⟨[.ListNetworks req.TenantID], .returned (resp, none)⟩

/-- `KubeHandler.ListSubnets`. -/
def KubeHandler.ListSubnets (h : KubeHandler) (req : ListSubnetsRequest) :
    Run DriverCall (ListSubnetsResponse × error) :=
  let resp : ListSubnetsResponse := {}
  let r := h.driver.ListSubnets req.NetworkID
  let resp : ListSubnetsResponse :=
    match r.2 with
    | some err => { resp with Error := err.Error }
    | none => { resp with Subnets := r.1 }
  ⟨[.ListSubnets req.NetworkID], .returned (resp, none)⟩

/-- `KubeHandler.CreateSubnet`. -/
def KubeHandler.CreateSubnet (h : KubeHandler) (req : CreateSubnetRequest) :
    Run DriverCall (CommonResponse × error) :=
  let resp : CommonResponse := {}
  match req.Subnet with
  | none => ⟨[], .panicked⟩
  | some subnet =>
    let subnet' : Subnet := { subnet with Tenantid := h.driver.ToTenantID subnet.Tenantid }
    let resp : CommonResponse :=
      match h.driver.CreateSubnet (some subnet') with
      | some err => { resp with Error := err.Error }
      | none => resp
    ⟨[.ToTenantID subnet.Tenantid, .CreateSubnet (some subnet')], .returned (resp, none)⟩

/-- `KubeHandler.GetSubnet`. -/
def KubeHandler.GetSubnet (h : KubeHandler) (req : GetSubnetRequest) :
    Run DriverCall (GetSubnetResponse × error) :=
  let resp : GetSubnetResponse := {}
  let r := h.driver.GetSubnet req.SubnetID
  let resp : GetSubnetResponse :=
    match r.2 with
    | some err => { resp with Error := err.Error }
    | none => { resp with Subnet := r.1 }
  ⟨[.GetSubnet req.SubnetID], .returned (resp, none)⟩

/-- `KubeHandler.DeleteSubnet`. -/
def KubeHandler.DeleteSubnet (h : KubeHandler) (req : DeleteSubnetRequest) :
    Run DriverCall (CommonResponse × error) :=
  let resp : CommonResponse := {}
  let resp : CommonResponse :=
    match h.driver.DeleteSubnet req.SubnetID req.NetworkID with
    | some err => { resp with Error := err.Error }
    | none => resp
  ⟨[.DeleteSubnet req.SubnetID req.NetworkID], .returned (resp, none)⟩

/-- `KubeHandler.UpdateSubnet`: the request's `Subnet` pointer goes to the driver as it
is. -/
def KubeHandler.UpdateSubnet (h : KubeHandler) (req : UpdateSubnetRequest) :
    Run DriverCall (CommonResponse × error) :=
  let resp : CommonResponse := {}
  let resp : CommonResponse :=
    match h.driver.UpdateSubnet req.Subnet with
    | some err => { resp with Error := err.Error }
    | none => resp
  ⟨[.UpdateSubnet req.Subnet], .returned (resp, none)⟩

/-- `KubeHandler.ConnectSubnets`. -/
def KubeHandler.ConnectSubnets (h : KubeHandler) (req : ConnectSubnetsRequest) :
    Run DriverCall (CommonResponse × error) :=
  let resp : CommonResponse := {}
  let resp : CommonResponse :=
    match h.driver.ConnectSubnets req.Subnet1 req.Subnet2 with
    | some err => { resp with Error := err.Error }
    | none => resp
  ⟨[.ConnectSubnets req.Subnet1 req.Subnet2], .returned (resp, none)⟩

/-- `KubeHandler.GetLoadBalancer`. -/
def KubeHandler.GetLoadBalancer (h : KubeHandler) (req : GetLoadBalancerRequest) :
    Run DriverCall (GetLoadBalancerResponse × error) :=
  let resp : GetLoadBalancerResponse := {}
  let r := h.driver.GetLoadBalancer req.Name
  let resp : GetLoadBalancerResponse :=
    match r.2 with
    | some err => { resp with Error := err.Error }
    | none => { resp with LoadBalancer := r.1 }
  ⟨[.GetLoadBalancer req.Name], .returned (resp, none)⟩

/-- `KubeHandler.CreateLoadBalancer`: `string(req.Affinity)` is the affinity string. -/
def KubeHandler.CreateLoadBalancer (h : KubeHandler) (req : CreateLoadBalancerRequest) :
    Run DriverCall (CreateLoadBalancerResponse × error) :=
  let resp : CreateLoadBalancerResponse := {}
  match req.LoadBalancer with
  | none => ⟨[], .panicked⟩
  | some lb =>
    let lb' : LoadBalancer := { lb with TenantID := h.driver.ToTenantID lb.TenantID }
    let r := h.driver.CreateLoadBalancer (some lb') req.Affinity
    let resp : CreateLoadBalancerResponse :=
      match r.2 with
      | some err => { resp with Error := err.Error }
      | none => { resp with Vip := r.1 }
    ⟨[.ToTenantID lb.TenantID, .CreateLoadBalancer (some lb') req.Affinity],
      .returned (resp, none)⟩

/-- `KubeHandler.UpdateLoadBalancer`. -/
def KubeHandler.UpdateLoadBalancer (h : KubeHandler) (req : UpdateLoadBalancerRequest) :
    Run DriverCall (UpdateLoadBalancerResponse × error) :=
  let resp : UpdateLoadBalancerResponse := {}
  let r := h.driver.UpdateLoadBalancer req.Name req.Hosts req.ExternalIPs
  let resp : UpdateLoadBalancerResponse :=
    match r.2 with
    | some err => { resp with Error := err.Error }
    | none => { resp with Vip := r.1 }
  ⟨[.UpdateLoadBalancer req.Name req.Hosts req.ExternalIPs], .returned (resp, none)⟩

/-- `KubeHandler.DeleteLoadBalancer`. -/
def KubeHandler.DeleteLoadBalancer (h : KubeHandler) (req : DeleteLoadBalancerRequest) :
    Run DriverCall (CommonResponse × error) :=
  let resp : CommonResponse := {}
  let resp : CommonResponse :=
    match h.driver.DeleteLoadBalancer req.Name with
    | some err => { resp with Error := err.Error }
    | none => resp
  ⟨[.DeleteLoadBalancer req.Name], .returned (resp, none)⟩

/-- `KubeHandler.SetupPod`. -/
def KubeHandler.SetupPod (h : KubeHandler) (req : SetupPodRequest) :
    Run DriverCall (CommonResponse × error) :=
  let resp : CommonResponse := {}
  let resp : CommonResponse :=
    match h.driver.SetupPod req.PodName req.Namespace req.PodInfraContainerID req.Network
        req.ContainerRuntime req.SubnetID with
    | some err => { resp with Error := err.Error }
    | none => resp
  ⟨[.SetupPod req.PodName req.Namespace req.PodInfraContainerID req.Network
      req.ContainerRuntime req.SubnetID], .returned (resp, none)⟩

/-- `KubeHandler.TeardownPod`. -/
def KubeHandler.TeardownPod (h : KubeHandler) (req : TeardownPodRequest) :
    Run DriverCall (CommonResponse × error) :=
  let resp : CommonResponse := {}
  let resp : CommonResponse :=
    match h.driver.TeardownPod req.PodName req.Namespace req.PodInfraContainerID req.Network
        req.ContainerRuntime with
    | some err => { resp with Error := err.Error }
    | none => resp
  ⟨[.TeardownPod req.PodName req.Namespace req.PodInfraContainerID req.Network
      req.ContainerRuntime], .returned (resp, none)⟩

/-- `KubeHandler.PodStatus`. -/
def KubeHandler.PodStatus (h : KubeHandler) (req : PodStatusRequest) :
    Run DriverCall (PodStatusResponse × error) :=
  let resp : PodStatusResponse := {}
  let r := h.driver.PodStatus req.PodName req.Namespace req.PodInfraContainerID req.Network
    req.ContainerRuntime
  let resp : PodStatusResponse :=
    match r.2 with
    | some err => { resp with Error := err.Error }
    | none => { resp with Ip := r.1 }
  ⟨[.PodStatus req.PodName req.Namespace req.PodInfraContainerID req.Network
      req.ContainerRuntime], .returned (resp, none)⟩

/-! ## The transport behind the stub -/

/-- A call of a remote method, with the request it carried. -/
inductive RpcCall where
  | Active (req : ActiveRequest)
  | GetNetwork (req : GetNetworkRequest)
  | CreateNetwork (req : CreateNetworkRequest)
  | UpdateNetwork (req : UpdateNetworkRequest)
  | DeleteNetwork (req : DeleteNetworkRequest)
  | ListNetworks (req : ListNetworkRequest)
  | ListSubnets (req : ListSubnetsRequest)
  | CreateSubnet (req : CreateSubnetRequest)
  | DeleteSubnet (req : DeleteSubnetRequest)
  | UpdateSubnet (req : UpdateSubnetRequest)
  | SetupPod (req : SetupPodRequest)
  | TeardownPod (req : TeardownPodRequest)
  | PodStatus (req : PodStatusRequest)
  | CreateFloatingIp (req : CreateFloatingIpRequest)
  | BindFloatingIp (req : BindFloatingIpRequest)
  | BindPortToExternal (req : BindPortToExternalRequest)
  | UnbindPortFromExternal (req : UnbindPortFromExternalRequest)
  | DelFloatingIp (req : DelFloatingIpRequest)
  | ListFloatingIps (req : ListFloatingIpsRequest)
  deriving DecidableEq, Repr

/-- Modelled from the spec: the generated interface `types.NetworksClient`, reduced to
the remote methods the stub calls. A method maps the request to what the Go call
returns: the response pointer and the transport `error`. -/
structure NetworksClient where
  Active : ActiveRequest → Option ActivateResponse × error
  GetNetwork : GetNetworkRequest → Option GetNetworkResponse × error
  CreateNetwork : CreateNetworkRequest → Option CommonResponse × error
  UpdateNetwork : UpdateNetworkRequest → Option CommonResponse × error
  DeleteNetwork : DeleteNetworkRequest → Option CommonResponse × error
  ListNetworks : ListNetworkRequest → Option ListNetworkResponse × error

/-- Modelled from the spec: the generated interface `types.PodsClient`. -/
structure PodsClient where
  SetupPod : SetupPodRequest → Option CommonResponse × error
  TeardownPod : TeardownPodRequest → Option CommonResponse × error
  PodStatus : PodStatusRequest → Option PodStatusResponse × error

/-- Modelled from the spec: the generated interface `types.LoadBalancersClient`; the stub
stores it and calls none of its methods. -/
structure LoadBalancersClient where

/-- Modelled from the spec: the generated interface `types.SubnetsClient`. -/
structure SubnetsClient where
  ListSubnets : ListSubnetsRequest → Option ListSubnetsResponse × error
  CreateSubnet : CreateSubnetRequest → Option CommonResponse × error
  DeleteSubnet : DeleteSubnetRequest → Option CommonResponse × error
  UpdateSubnet : UpdateSubnetRequest → Option CommonResponse × error

/-- Modelled from the spec: the generated interface `types.FloatingIPsClient`. -/
structure FloatingIPsClient where
  CreateFloatingIp : CreateFloatingIpRequest → Option CreateFloatingIpResponse × error
  BindFloatingIp : BindFloatingIpRequest → Option CommonResponse × error
  BindPortToExternal : BindPortToExternalRequest → Option BindPortToExternalResponse × error
  UnbindPortFromExternal : UnbindPortFromExternalRequest → Option CommonResponse × error
  DelFloatingIp : DelFloatingIpRequest → Option CommonResponse × error
  ListFloatingIps : ListFloatingIpsRequest → Option ListFloatingIpsResponse × error

/-- Modelled from the spec: a live connection `*grpc.ClientConn`, given by the clients
that the generated constructors build over it. -/
structure ClientConn where
  networks : NetworksClient
  pods : PodsClient
  loadBalancers : LoadBalancersClient
  subnets : SubnetsClient
  floatingIPs : FloatingIPsClient

/-- The generated constructor `types.NewNetworksClient`. -/
def types.NewNetworksClient (conn : ClientConn) : NetworksClient := conn.networks

/-- The generated constructor `types.NewPodsClient`. -/
def types.NewPodsClient (conn : ClientConn) : PodsClient := conn.pods

/-- The generated constructor `types.NewLoadBalancersClient`. -/
def types.NewLoadBalancersClient (conn : ClientConn) : LoadBalancersClient :=
  conn.loadBalancers

/-- The generated constructor `types.NewSubnetsClient`. -/
def types.NewSubnetsClient (conn : ClientConn) : SubnetsClient := conn.subnets

/-- The generated constructor `types.NewFloatingIPsClient`. -/
def types.NewFloatingIPsClient (conn : ClientConn) : FloatingIPsClient := conn.floatingIPs

/-! ## The client stub (`client/kubestackclient.go`) -/

/-- The stub of `client/kubestackclient.go`. -/
structure NeutronProvider where
  server : String
  networkClient : NetworksClient
  podClient : PodsClient
  loadbalancerClient : LoadBalancersClient
  subnetClient : SubnetsClient
  floatingIPClient : FloatingIPsClient

/-- Evaluating `p.Field` for a pointer `p`, as the arguments of a log statement do: a nil
`p` panics, otherwise execution goes on with `k`. -/
def readThrough {α β : Type} (p : Option α) (k : Outcome β) : Outcome β :=
  match p with
  | none => .panicked
  | some _ => k

/-- `InitNeutronProviders` of `client/kubestackclient.go`; `dial` is `grpc.Dial` with the
insecure option. The guard `err != nil || !resp.Result` returns `nil, err` on both of its
sides. -/
def InitNeutronProviders (dial : String → Option ClientConn × error) (remoteAddr : String) :
    Run RpcCall (Option NeutronProvider × error) :=
  match dial remoteAddr with
  | (_, some err) => ⟨[], .returned (none, some err)⟩
  | (none, none) => ⟨[], .panicked⟩
  | (some conn, none) =>
    let networkClient := types.NewNetworksClient conn
    let podClient := types.NewPodsClient conn
    let lbClient := types.NewLoadBalancersClient conn
    let subnetClient := types.NewSubnetsClient conn
    let floatingIPClient := types.NewFloatingIPsClient conn
    ⟨[.Active {}],
      match networkClient.Active {} with
      | (_, some err) => .returned (none, some err)
      | (none, none) => .panicked
      | (some resp, none) =>
        if !resp.Result then
          .returned (none, none)
        else
          .returned (some {
            server := remoteAddr
            podClient := podClient
            loadbalancerClient := lbClient
            networkClient := networkClient
            subnetClient := subnetClient
            floatingIPClient := floatingIPClient }, none)⟩

/-- `NeutronProvider.CreateFloatingIp`. -/
def NeutronProvider.CreateFloatingIp (r : NeutronProvider) (tenantId : String) :
    Run RpcCall (Option FloatingIp × error) :=
  let req : CreateFloatingIpRequest := { TenantID := tenantId }
  ⟨[.CreateFloatingIp req],
    match r.floatingIPClient.CreateFloatingIp req with
    | (_, some err) => .returned (none, some err)
    | (none, none) => .panicked
    | (some resp, none) =>
      if resp.Error ≠ "" then .returned (none, some (errors.New resp.Error))
      else .returned (resp.FloatingIp, none)⟩

/-- `NeutronProvider.BindFloatingIp`. -/
def NeutronProvider.BindFloatingIp (r : NeutronProvider) (protId floatingipId : String) :
    Run RpcCall error :=
  if protId = "" ∨ floatingipId = "" then
    ⟨[], .returned (some (errors.New "PortId or FloatingIp Id cant not be nil"))⟩
  else
    let req : BindFloatingIpRequest := { PortId := protId, FloatingipId := floatingipId }
    ⟨[.BindFloatingIp req],
      match r.floatingIPClient.BindFloatingIp req with
      | (_, some err) => .returned (some err)
      | (none, none) => .panicked
      | (some resp, none) =>
        if resp.Error ≠ "" then .returned (some (errors.New resp.Error))
        else .returned none⟩

/-- `NeutronProvider.BindPortToExternal`. -/
def NeutronProvider.BindPortToExternal (r : NeutronProvider) (portName tenantID : String) :
    Run RpcCall (String × error) :=
  let req : BindPortToExternalRequest := { PortName := portName, TenantID := tenantID }
  ⟨[.BindPortToExternal req],
    match r.floatingIPClient.BindPortToExternal req with
    | (_, some err) => .returned ("", some err)
    | (none, none) => .panicked
    | (some resp, none) =>
      if resp.Error ≠ "" then .returned ("", some (errors.New resp.Error))
      else .returned (resp.Floatingip, none)⟩

/-- `NeutronProvider.UnbindPortFromExternal`. -/
def NeutronProvider.UnbindPortFromExternal (r : NeutronProvider) (portName : String) :
    Run RpcCall error :=
  let req : UnbindPortFromExternalRequest := { PortName := portName }
  ⟨[.UnbindPortFromExternal req],
    match r.floatingIPClient.UnbindPortFromExternal req with
    | (_, some err) => .returned (some err)
    | (none, none) => .panicked
    | (some resp, none) =>
      if resp.Error ≠ "" then .returned (some (errors.New resp.Error))
      else .returned none⟩

/-- `NeutronProvider.DelFloatingIp`. -/
def NeutronProvider.DelFloatingIp (r : NeutronProvider) (floatingipId : String) :
    Run RpcCall error :=
  if floatingipId = "" then
    ⟨[], .returned (some (errors.New "floatingipId is null"))⟩
  else
    let req : DelFloatingIpRequest := { FloatingipId := floatingipId }
    ⟨[.DelFloatingIp req],
      match r.floatingIPClient.DelFloatingIp req with
      | (_, some err) => .returned (some err)
      | (none, none) => .panicked
      | (some resp, none) =>
        if resp.Error ≠ "" then .returned (some (errors.New resp.Error))
        else .returned none⟩

/-- `NeutronProvider.ListFloatingIps`. Inside the guard `err != nil || resp.Error != ""`
the source tests `err != nil` (the other methods test `err == nil`) before it overwrites
`err` with `errors.New(resp.Error)`: a transport error is replaced by the response's
string, read through the response pointer, and an in-band error leaves `err` nil. -/
def NeutronProvider.ListFloatingIps (r : NeutronProvider) (floatingNetworkID : String) :
    Run RpcCall (List FloatingIp × error) :=
  let req : ListFloatingIpsRequest := { FloatingNetworkID := floatingNetworkID }
  ⟨[.ListFloatingIps req],
    match r.floatingIPClient.ListFloatingIps req with
    | (none, some _) => .panicked
    | (some resp, some _) => .returned ([], some (errors.New resp.Error))
    | (none, none) => .panicked
    | (some resp, none) =>
      if resp.Error ≠ "" then .returned ([], none)
      else .returned (resp.Floatings, none)⟩

/-- `NeutronProvider.GetNetwork`. -/
def NeutronProvider.GetNetwork (r : NeutronProvider) (networkName : String) :
    Run RpcCall (Option Network × error) :=
  if networkName = "" then
    ⟨[], .returned (none, some (errors.New "networkName is null"))⟩
  else
    let req : GetNetworkRequest := { Name := networkName }
    ⟨[.GetNetwork req],
      match r.networkClient.GetNetwork req with
      | (_, some err) => .returned (none, some err)
      | (none, none) => .panicked
      | (some resp, none) =>
        if resp.Error ≠ "" then .returned (none, some (errors.New resp.Error))
        else .returned (resp.Network, none)⟩

/-- `NeutronProvider.GetNetworkByID`. -/
def NeutronProvider.GetNetworkByID (r : NeutronProvider) (networkID : String) :
    Run RpcCall (Option Network × error) :=
  if networkID = "" then
    ⟨[], .returned (none, some (errors.New "networkID is null"))⟩
  else
    let req : GetNetworkRequest := { Id := networkID }
    ⟨[.GetNetwork req],
      match r.networkClient.GetNetwork req with
      | (_, some err) => .returned (none, some err)
      | (none, none) => .panicked
      | (some resp, none) =>
        if resp.Error ≠ "" then .returned (none, some (errors.New resp.Error))
        else .returned (resp.Network, none)⟩

/-- `NeutronProvider.CreateNetwork`; the warning of the failure branch formats
`network.Name`. -/
def NeutronProvider.CreateNetwork (r : NeutronProvider) (network : Option Network) :
    Run RpcCall error :=
  let req : CreateNetworkRequest := { Network := network }
  ⟨[.CreateNetwork req],
    match r.networkClient.CreateNetwork req with
    | (_, some err) => readThrough network (.returned (some err))
    | (none, none) => .panicked
    | (some resp, none) =>
      if resp.Error ≠ "" then readThrough network (.returned (some (errors.New resp.Error)))
      else .returned none⟩

/-- `NeutronProvider.UpdateNetwork`. -/
def NeutronProvider.UpdateNetwork (r : NeutronProvider) (network : Option Network) :
    Run RpcCall error :=
  let req : UpdateNetworkRequest := { Network := network }
  ⟨[.UpdateNetwork req],
    match r.networkClient.UpdateNetwork req with
    | (_, some err) => readThrough network (.returned (some err))
    | (none, none) => .panicked
    | (some resp, none) =>
      if resp.Error ≠ "" then readThrough network (.returned (some (errors.New resp.Error)))
      else .returned none⟩

/-- `NeutronProvider.DeleteNetwork`. -/
def NeutronProvider.DeleteNetwork (r : NeutronProvider) (networkID : String) :
    Run RpcCall error :=
  if networkID = "" then
    ⟨[], .returned (some (errors.New "networkName is null"))⟩
  else
    let req : DeleteNetworkRequest := { NetworkID := networkID }
    ⟨[.DeleteNetwork req],
      match r.networkClient.DeleteNetwork req with
      | (_, some err) => .returned (some err)
      | (none, none) => .panicked
      | (some resp, none) =>
        if resp.Error ≠ "" then .returned (some (errors.New resp.Error))
        else .returned none⟩

/-- `NeutronProvider.ListNetworks`. -/
def NeutronProvider.ListNetworks (r : NeutronProvider) (tenantID : String) :
    Run RpcCall (List Network × error) :=
  let req : ListNetworkRequest := { TenantID := tenantID }
  ⟨[.ListNetworks req],
    match r.networkClient.ListNetworks req with
    | (_, some err) => .returned ([], some err)
    | (none, none) => .panicked
    | (some resp, none) =>
      if resp.Error ≠ "" then .returned ([], some (errors.New resp.Error))
      else .returned (resp.Networks, none)⟩

/-- `NeutronProvider.ListSubnets`. -/
def NeutronProvider.ListSubnets (r : NeutronProvider) (networkID : String) :
    Run RpcCall (List Subnet × error) :=
  let req : ListSubnetsRequest := { NetworkID := networkID }
  ⟨[.ListSubnets req],
    match r.subnetClient.ListSubnets req with
    | (_, some err) => .returned ([], some err)
    | (none, none) => .panicked
    | (some resp, none) =>
      if resp.Error ≠ "" then .returned ([], some (errors.New resp.Error))
      else .returned (resp.Subnets, none)⟩

/-- `NeutronProvider.CreateSubnet`; the warning of the failure branch formats
`subnet.Name`. -/
def NeutronProvider.CreateSubnet (r : NeutronProvider) (subnet : Option Subnet) :
    Run RpcCall error :=
  let req : CreateSubnetRequest := { Subnet := subnet }
  ⟨[.CreateSubnet req],
    match r.subnetClient.CreateSubnet req with
    | (_, some err) => readThrough subnet (.returned (some err))
    | (none, none) => .panicked
    | (some resp, none) =>
      if resp.Error ≠ "" then readThrough subnet (.returned (some (errors.New resp.Error)))
      else .returned none⟩

/-- `NeutronProvider.DeleteSubnet`: no test of its arguments precedes the remote call. -/
def NeutronProvider.DeleteSubnet (r : NeutronProvider) (subnetID networkID : String) :
    Run RpcCall error :=
  let req : DeleteSubnetRequest := { SubnetID := subnetID, NetworkID := networkID }
  ⟨[.DeleteSubnet req],
    match r.subnetClient.DeleteSubnet req with
    | (_, some err) => .returned (some err)
    | (none, none) => .panicked
    | (some resp, none) =>
      if resp.Error ≠ "" then .returned (some (errors.New resp.Error))
      else .returned none⟩

/-- `NeutronProvider.UpdateSubnet`. -/
def NeutronProvider.UpdateSubnet (r : NeutronProvider) (subnet : Option Subnet) :
    Run RpcCall error :=
  let req : UpdateSubnetRequest := { Subnet := subnet }
  ⟨[.UpdateSubnet req],
    match r.subnetClient.UpdateSubnet req with
    | (_, some err) => readThrough subnet (.returned (some err))
    | (none, none) => .panicked
    | (some resp, none) =>
      if resp.Error ≠ "" then readThrough subnet (.returned (some (errors.New resp.Error)))
      else .returned none⟩

/-- `NeutronProvider.SetupPod`. -/
def NeutronProvider.SetupPod (r : NeutronProvider) (podName ns podInfraContainerID : String)
    (network : Option Network) (containerRuntime subnetID : String) : Run RpcCall error :=
  let req : SetupPodRequest := {
    PodName := podName
    Namespace := ns
    PodInfraContainerID := podInfraContainerID
    ContainerRuntime := containerRuntime
    Network := network
    SubnetID := subnetID }
  ⟨[.SetupPod req],
    match r.podClient.SetupPod req with
    | (_, some err) => .returned (some err)
    | (none, none) => .panicked
    | (some resp, none) =>
      if resp.Error ≠ "" then .returned (some (errors.New resp.Error))
      else .returned none⟩

/-- `NeutronProvider.TeardownPod`. -/
def NeutronProvider.TeardownPod (r : NeutronProvider)
    (podName ns podInfraContainerID : String) (network : Option Network)
    (containerRuntime : String) : Run RpcCall error :=
  let req : TeardownPodRequest := {
    PodName := podName
    Namespace := ns
    PodInfraContainerID := podInfraContainerID
    ContainerRuntime := containerRuntime
    Network := network }
  ⟨[.TeardownPod req],
    match r.podClient.TeardownPod req with
    | (_, some err) => .returned (some err)
    | (none, none) => .panicked
    | (some resp, none) =>
      if resp.Error ≠ "" then .returned (some (errors.New resp.Error))
      else .returned none⟩

/-- `NeutronProvider.PodStatus`. -/
def NeutronProvider.PodStatus (r : NeutronProvider)
    (podName ns podInfraContainerID : String) (network : Option Network)
    (containerRuntime : String) : Run RpcCall (String × error) :=
  let req : PodStatusRequest := {
    PodName := podName
    Namespace := ns
    PodInfraContainerID := podInfraContainerID
    ContainerRuntime := containerRuntime
    Network := network }
  ⟨[.PodStatus req],
    match r.podClient.PodStatus req with
    | (_, some err) => .returned ("", some err)
    | (none, none) => .panicked
    | (some resp, none) =>
      if resp.Error ≠ "" then .returned ("", some (errors.New resp.Error))
      else .returned (resp.Ip, none)⟩

/-! ## The stub of `kubestackclient.go` at the root of the repository

The file at the root is the stub without the floating-IP group. -/

/-- The stub of the root `kubestackclient.go`: it keeps no floating-IP client. -/
structure RootClient.NeutronProvider where
  server : String
  networkClient : NetworksClient
  podClient : PodsClient
  loadbalancerClient : LoadBalancersClient
  subnetClient : SubnetsClient

/-- `InitNeutronProviders` of the root `kubestackclient.go`. -/
def RootClient.InitNeutronProviders (dial : String → Option ClientConn × error)
    (remoteAddr : String) : Run RpcCall (Option RootClient.NeutronProvider × error) :=
  match dial remoteAddr with
  | (_, some err) => ⟨[], .returned (none, some err)⟩
  | (none, none) => ⟨[], .panicked⟩
  | (some conn, none) =>
    let networkClient := types.NewNetworksClient conn
    let podClient := types.NewPodsClient conn
    let lbClient := types.NewLoadBalancersClient conn
    let subnetClient := types.NewSubnetsClient conn
    ⟨[.Active {}],
      match networkClient.Active {} with
      | (_, some err) => .returned (none, some err)
      | (none, none) => .panicked
      | (some resp, none) =>
        if !resp.Result then
          .returned (none, none)
        else
          .returned (some {
            server := remoteAddr
            podClient := podClient
            loadbalancerClient := lbClient
            networkClient := networkClient
            subnetClient := subnetClient }, none)⟩

/-- `NeutronProvider.GetNetwork` of the root `kubestackclient.go`. -/
def RootClient.NeutronProvider.GetNetwork (r : RootClient.NeutronProvider) (networkName : String) :
    Run RpcCall (Option Network × error) :=
  if networkName = "" then
    ⟨[], .returned (none, some (errors.New "networkName is null"))⟩
  else
    let req : GetNetworkRequest := { Name := networkName }
    ⟨[.GetNetwork req],
      match r.networkClient.GetNetwork req with
      | (_, some err) => .returned (none, some err)
      | (none, none) => .panicked
      | (some resp, none) =>
        if resp.Error ≠ "" then .returned (none, some (errors.New resp.Error))
        else .returned (resp.Network, none)⟩

/-- `NeutronProvider.GetNetworkByID` of the root `kubestackclient.go`. -/
def RootClient.NeutronProvider.GetNetworkByID (r : RootClient.NeutronProvider)
    (networkID : String) :
    Run RpcCall (Option Network × error) :=
  if networkID = "" then
    ⟨[], .returned (none, some (errors.New "networkID is null"))⟩
  else
    let req : GetNetworkRequest := { Id := networkID }
    ⟨[.GetNetwork req],
      match r.networkClient.GetNetwork req with
      | (_, some err) => .returned (none, some err)
      | (none, none) => .panicked
      | (some resp, none) =>
        if resp.Error ≠ "" then .returned (none, some (errors.New resp.Error))
        else .returned (resp.Network, none)⟩

/-- `NeutronProvider.CreateNetwork` of the root `kubestackclient.go`. -/
def RootClient.NeutronProvider.CreateNetwork (r : RootClient.NeutronProvider)
    (network : Option Network) :
    Run RpcCall error :=
  let req : CreateNetworkRequest := { Network := network }
  ⟨[.CreateNetwork req],
    match r.networkClient.CreateNetwork req with
    | (_, some err) => readThrough network (.returned (some err))
    | (none, none) => .panicked
    | (some resp, none) =>
      if resp.Error ≠ "" then readThrough network (.returned (some (errors.New resp.Error)))
      else .returned none⟩

/-- `NeutronProvider.UpdateNetwork` of the root `kubestackclient.go`. -/
def RootClient.NeutronProvider.UpdateNetwork (r : RootClient.NeutronProvider)
    (network : Option Network) :
    Run RpcCall error :=
  let req : UpdateNetworkRequest := { Network := network }
  ⟨[.UpdateNetwork req],
    match r.networkClient.UpdateNetwork req with
    | (_, some err) => readThrough network (.returned (some err))
    | (none, none) => .panicked
    | (some resp, none) =>
      if resp.Error ≠ "" then readThrough network (.returned (some (errors.New resp.Error)))
      else .returned none⟩

/-- `NeutronProvider.DeleteNetwork` of the root `kubestackclient.go`. -/
def RootClient.NeutronProvider.DeleteNetwork (r : RootClient.NeutronProvider) (networkID : String) :
    Run RpcCall error :=
  if networkID = "" then
    ⟨[], .returned (some (errors.New "networkName is null"))⟩
  else
    let req : DeleteNetworkRequest := { NetworkID := networkID }
    ⟨[.DeleteNetwork req],
      match r.networkClient.DeleteNetwork req with
      | (_, some err) => .returned (some err)
      | (none, none) => .panicked
      | (some resp, none) =>
        if resp.Error ≠ "" then .returned (some (errors.New resp.Error))
        else .returned none⟩

/-- `NeutronProvider.ListSubnets` of the root `kubestackclient.go`. -/
def RootClient.NeutronProvider.ListSubnets (r : RootClient.NeutronProvider) (networkID : String) :
    Run RpcCall (List Subnet × error) :=
  let req : ListSubnetsRequest := { NetworkID := networkID }
  ⟨[.ListSubnets req],
    match r.subnetClient.ListSubnets req with
    | (_, some err) => .returned ([], some err)
    | (none, none) => .panicked
    | (some resp, none) =>
      if resp.Error ≠ "" then .returned ([], some (errors.New resp.Error))
      else .returned (resp.Subnets, none)⟩

/-- `NeutronProvider.CreateSubnet` of the root `kubestackclient.go`. -/
def RootClient.NeutronProvider.CreateSubnet (r : RootClient.NeutronProvider)
    (subnet : Option Subnet) :
    Run RpcCall error :=
  let req : CreateSubnetRequest := { Subnet := subnet }
  ⟨[.CreateSubnet req],
    match r.subnetClient.CreateSubnet req with
    | (_, some err) => readThrough subnet (.returned (some err))
    | (none, none) => .panicked
    | (some resp, none) =>
      if resp.Error ≠ "" then readThrough subnet (.returned (some (errors.New resp.Error)))
      else .returned none⟩

/-- `NeutronProvider.DeleteSubnet` of the root `kubestackclient.go`. -/
def RootClient.NeutronProvider.DeleteSubnet (r : RootClient.NeutronProvider)
    (subnetID networkID : String) :
    Run RpcCall error :=
  let req : DeleteSubnetRequest := { SubnetID := subnetID, NetworkID := networkID }
  ⟨[.DeleteSubnet req],
    match r.subnetClient.DeleteSubnet req with
    | (_, some err) => .returned (some err)
    | (none, none) => .panicked
    | (some resp, none) =>
      if resp.Error ≠ "" then .returned (some (errors.New resp.Error))
      else .returned none⟩

/-- `NeutronProvider.UpdateSubnet` of the root `kubestackclient.go`. -/
def RootClient.NeutronProvider.UpdateSubnet (r : RootClient.NeutronProvider)
    (subnet : Option Subnet) :
    Run RpcCall error :=
  let req : UpdateSubnetRequest := { Subnet := subnet }
  ⟨[.UpdateSubnet req],
    match r.subnetClient.UpdateSubnet req with
    | (_, some err) => readThrough subnet (.returned (some err))
    | (none, none) => .panicked
    | (some resp, none) =>
      if resp.Error ≠ "" then readThrough subnet (.returned (some (errors.New resp.Error)))
      else .returned none⟩

/-- `NeutronProvider.SetupPod` of the root `kubestackclient.go`. -/
def RootClient.NeutronProvider.SetupPod (r : RootClient.NeutronProvider)
    (podName ns podInfraContainerID : String)
    (network : Option Network) (containerRuntime subnetID : String) : Run RpcCall error :=
  let req : SetupPodRequest := {
    PodName := podName
    Namespace := ns
    PodInfraContainerID := podInfraContainerID
    ContainerRuntime := containerRuntime
    Network := network
    SubnetID := subnetID }
  ⟨[.SetupPod req],
    match r.podClient.SetupPod req with
    | (_, some err) => .returned (some err)
    | (none, none) => .panicked
    | (some resp, none) =>
      if resp.Error ≠ "" then .returned (some (errors.New resp.Error))
      else .returned none⟩

/-- `NeutronProvider.TeardownPod` of the root `kubestackclient.go`. -/
def RootClient.NeutronProvider.TeardownPod (r : RootClient.NeutronProvider)
    (podName ns podInfraContainerID : String) (network : Option Network)
    (containerRuntime : String) : Run RpcCall error :=
  let req : TeardownPodRequest := {
    PodName := podName
    Namespace := ns
    PodInfraContainerID := podInfraContainerID
    ContainerRuntime := containerRuntime
    Network := network }
  ⟨[.TeardownPod req],
    match r.podClient.TeardownPod req with
    | (_, some err) => .returned (some err)
    | (none, none) => .panicked
    | (some resp, none) =>
      if resp.Error ≠ "" then .returned (some (errors.New resp.Error))
      else .returned none⟩

/-- `NeutronProvider.PodStatus` of the root `kubestackclient.go`. -/
def RootClient.NeutronProvider.PodStatus (r : RootClient.NeutronProvider)
    (podName ns podInfraContainerID : String) (network : Option Network)
    (containerRuntime : String) : Run RpcCall (String × error) :=
  let req : PodStatusRequest := {
    PodName := podName
    Namespace := ns
    PodInfraContainerID := podInfraContainerID
    ContainerRuntime := containerRuntime
    Network := network }
  ⟨[.PodStatus req],
    match r.podClient.PodStatus req with
    | (_, some err) => .returned ("", some err)
    | (none, none) => .panicked
    | (some resp, none) =>
      if resp.Error ≠ "" then .returned ("", some (errors.New resp.Error))
      else .returned (resp.Ip, none)⟩

/-- The stub of the root file that keeps the clients of `r`: `r` without its
floating-IP client. Both versions of `InitNeutronProviders` build their stub from the
same connection, so their stubs are related in this way. -/
def NeutronProvider.toRoot (r : NeutronProvider) : RootClient.NeutronProvider where
  server := r.server
  networkClient := r.networkClient
  podClient := r.podClient
  loadbalancerClient := r.loadbalancerClient
  subnetClient := r.subnetClient

/-! ## The stub composed with the dispatcher

The stub of a caller connected to a server that runs a `KubeHandler`. -/

/-- Modelled from the spec: one round trip of the transport (sections 4.2 and 7), seen
from the caller. A handler that returns a response with a nil error gives the caller
that response and a nil error; a handler that returns an error, or that panics, produces
no response and the caller gets a transport error. -/
def roundTrip {α : Type} (run : Run DriverCall (α × error)) : Option α × error :=
  match run.out with
  | .returned (resp, none) => (some resp, none)
  | .returned (_, some err) => (none, some err)
  | .panicked => (none, some (errors.New "transport: connection lost"))

/-- Modelled from the spec: a remote method that the server does not serve fails with a
transport error. -/
def unimplemented {α β : Type} (_req : α) : Option β × error :=
  (none, some (errors.New "transport: unimplemented"))

/-- The connection to a server that runs `h`. `registerServer` registers the handler for
the load-balancer, network, pod and subnet services; no floating-IP service is
registered. -/
def KubeHandler.serve (h : KubeHandler) : ClientConn where
  networks := {
    Active := fun req => roundTrip (h.Active req)
    GetNetwork := fun req => roundTrip (h.GetNetwork req)
    CreateNetwork := fun req => roundTrip (h.CreateNetwork req)
    UpdateNetwork := fun req => roundTrip (h.UpdateNetwork req)
    DeleteNetwork := fun req => roundTrip (h.DeleteNetwork req)
    ListNetworks := fun req => roundTrip (h.ListNetworks req) }
  pods := {
    SetupPod := fun req => roundTrip (h.SetupPod req)
    TeardownPod := fun req => roundTrip (h.TeardownPod req)
    PodStatus := fun req => roundTrip (h.PodStatus req) }
  loadBalancers := {}
  subnets := {
    ListSubnets := fun req => roundTrip (h.ListSubnets req)
    CreateSubnet := fun req => roundTrip (h.CreateSubnet req)
    DeleteSubnet := fun req => roundTrip (h.DeleteSubnet req)
    UpdateSubnet := fun req => roundTrip (h.UpdateSubnet req) }
  floatingIPs := {
    CreateFloatingIp := unimplemented
    BindFloatingIp := unimplemented
    BindPortToExternal := unimplemented
    UnbindPortFromExternal := unimplemented
    DelFloatingIp := unimplemented
    ListFloatingIps := unimplemented }

/-- The driver calls that one remote call causes on the server that runs `h`: the calls
of the handler that serves it. -/
def KubeHandler.handle (h : KubeHandler) : RpcCall → List DriverCall
  | .Active req => (h.Active req).calls
  | .GetNetwork req => (h.GetNetwork req).calls
  | .CreateNetwork req => (h.CreateNetwork req).calls
  | .UpdateNetwork req => (h.UpdateNetwork req).calls
  | .DeleteNetwork req => (h.DeleteNetwork req).calls
  | .ListNetworks req => (h.ListNetworks req).calls
  | .ListSubnets req => (h.ListSubnets req).calls
  | .CreateSubnet req => (h.CreateSubnet req).calls
  | .DeleteSubnet req => (h.DeleteSubnet req).calls
  | .UpdateSubnet req => (h.UpdateSubnet req).calls
  | .SetupPod req => (h.SetupPod req).calls
  | .TeardownPod req => (h.TeardownPod req).calls
  | .PodStatus req => (h.PodStatus req).calls
  | .CreateFloatingIp _ => []
  | .BindFloatingIp _ => []
  | .BindPortToExternal _ => []
  | .UnbindPortFromExternal _ => []
  | .DelFloatingIp _ => []
  | .ListFloatingIps _ => []

/-- The stub that `InitNeutronProviders` returns over the connection to a server that
runs `h`. -/
def KubeHandler.stub (h : KubeHandler) : NeutronProvider where
  server := "10.10.101.79:4237"
  networkClient := types.NewNetworksClient h.serve
  podClient := types.NewPodsClient h.serve
  loadbalancerClient := types.NewLoadBalancersClient h.serve
  subnetClient := types.NewSubnetsClient h.serve
  floatingIPClient := types.NewFloatingIPsClient h.serve

/-- The driver calls behind one stub call: those of its remote calls, in order. -/
def KubeHandler.driverCalls (h : KubeHandler) {α : Type} (run : Run RpcCall α) :
    List DriverCall :=
  run.calls.flatMap h.handle

/-- Whether a driver call is the tenant normalization `ToTenantID`, the step that the
create and update handlers take before their resource method. -/
def DriverCall.isToTenantID : DriverCall → Bool
  | .ToTenantID _ => true
  | _ => false

/-! ## Sample collaborators

Concrete drivers and transports on which the functions above are evaluated. -/

/-- A driver whose every method succeeds; it maps a tenant name `t` to the id `id-t`. -/
def sampleDriver : Driver where
  CheckTenantID := fun _ => (true, none)
  ToTenantID := fun raw => "id-" ++ raw
  GetNetworkByID := fun networkID => (some { Uid := networkID, Name := "by-id" }, none)
  GetNetwork := fun networkName => (some { Uid := "u1", Name := networkName }, none)
  CreateNetwork := fun _ => none
  UpdateNetwork := fun _ => none
  DeleteNetwork := fun _ => none
  ListNetworks := fun _ => ([], none)
  ListSubnets := fun _ => ([], none)
  CreateSubnet := fun _ => none
  GetSubnet := fun subnetID => (some { Uid := subnetID }, none)
  DeleteSubnet := fun _ _ => none
  UpdateSubnet := fun _ => none
  ConnectSubnets := fun _ _ => none
  GetLoadBalancer := fun name => (some { Name := name }, none)
  CreateLoadBalancer := fun _ _ => ("10.0.0.1", none)
  UpdateLoadBalancer := fun _ _ _ => ("10.0.0.1", none)
  DeleteLoadBalancer := fun _ => none
  SetupPod := fun _ _ _ _ _ _ => none
  TeardownPod := fun _ _ _ _ _ => none
  PodStatus := fun _ _ _ _ _ => ("10.244.0.7", none)

/-- A driver whose every fallible method fails with the message `boom`, while still
handing back a result next to the error. -/
def failingDriver : Driver where
  CheckTenantID := fun _ => (true, some (errors.New "boom"))
  ToTenantID := fun raw => "id-" ++ raw
  GetNetworkByID := fun networkID => (some { Uid := networkID }, some (errors.New "boom"))
  GetNetwork := fun networkName => (some { Name := networkName }, some (errors.New "boom"))
  CreateNetwork := fun _ => some (errors.New "boom")
  UpdateNetwork := fun _ => some (errors.New "boom")
  DeleteNetwork := fun _ => some (errors.New "boom")
  ListNetworks := fun _ => ([{ Name := "leftover" }], some (errors.New "boom"))
  ListSubnets := fun _ => ([{ Name := "leftover" }], some (errors.New "boom"))
  CreateSubnet := fun _ => some (errors.New "boom")
  GetSubnet := fun subnetID => (some { Uid := subnetID }, some (errors.New "boom"))
  DeleteSubnet := fun _ _ => some (errors.New "boom")
  UpdateSubnet := fun _ => some (errors.New "boom")
  ConnectSubnets := fun _ _ => some (errors.New "boom")
  GetLoadBalancer := fun name => (some { Name := name }, some (errors.New "boom"))
  CreateLoadBalancer := fun _ _ => ("10.0.0.1", some (errors.New "boom"))
  UpdateLoadBalancer := fun _ _ _ => ("10.0.0.1", some (errors.New "boom"))
  DeleteLoadBalancer := fun _ => some (errors.New "boom")
  SetupPod := fun _ _ _ _ _ _ => some (errors.New "boom")
  TeardownPod := fun _ _ _ _ _ => some (errors.New "boom")
  PodStatus := fun _ _ _ _ _ => ("10.244.0.7", some (errors.New "boom"))

/-- A connection over which every remote call succeeds with an empty in-band error; the
`Active` probe answers `Result: true`. -/
def sampleConn : ClientConn where
  networks := {
    Active := fun _ => (some { Result := true }, none)
    GetNetwork := fun req => (some { Network := some { Uid := req.Id, Name := req.Name } }, none)
    CreateNetwork := fun _ => (some {}, none)
    UpdateNetwork := fun _ => (some {}, none)
    DeleteNetwork := fun _ => (some {}, none)
    ListNetworks := fun _ => (some {}, none) }
  pods := {
    SetupPod := fun _ => (some {}, none)
    TeardownPod := fun _ => (some {}, none)
    PodStatus := fun _ => (some { Ip := "10.244.0.7" }, none) }
  loadBalancers := {}
  subnets := {
    ListSubnets := fun _ => (some {}, none)
    CreateSubnet := fun _ => (some {}, none)
    DeleteSubnet := fun _ => (some {}, none)
    UpdateSubnet := fun _ => (some {}, none) }
  floatingIPs := {
    CreateFloatingIp := fun req => (some { FloatingIp := some { TenantID := req.TenantID } }, none)
    BindFloatingIp := fun _ => (some {}, none)
    BindPortToExternal := fun _ => (some { Floatingip := "172.24.4.9" }, none)
    UnbindPortFromExternal := fun _ => (some {}, none)
    DelFloatingIp := fun _ => (some {}, none)
    ListFloatingIps := fun _ => (some {}, none) }

/-- The stub that `InitNeutronProviders` builds over `sampleConn`. -/
def sampleProvider : NeutronProvider where
  server := "10.10.101.79:4237"
  networkClient := sampleConn.networks
  podClient := sampleConn.pods
  loadbalancerClient := sampleConn.loadBalancers
  subnetClient := sampleConn.subnets
  floatingIPClient := sampleConn.floatingIPs

/-- The connection `sampleConn` with an `Active` probe that answers `Result: false`
over a working transport. -/
def inactiveConn : ClientConn :=
  { sampleConn with
    networks := { sampleConn.networks with Active := fun _ => (some { Result := false }, none) } }

/-- The stub `sampleProvider` over a backend that reports the in-band error `boom` for
`ListFloatingIps`, next to one floating IP, while the transport call succeeds. -/
def inBandErrorProvider : NeutronProvider :=
  { sampleProvider with
    floatingIPClient := { sampleProvider.floatingIPClient with
      ListFloatingIps := fun _ =>
        (some { Floatings := [{ Id := "fip1" }], Error := "boom" }, none) } }

/-- The stub `sampleProvider` over a transport whose `ListFloatingIps` call fails the way
the generated client fails: a nil response and the error `connection refused`. -/
def brokenTransportProvider : NeutronProvider :=
  { sampleProvider with
    floatingIPClient := { sampleProvider.floatingIPClient with
      ListFloatingIps := fun _ => (none, some (errors.New "connection refused")) } }

/-- As `brokenTransportProvider`, with a transport that hands back a response next to
its error. -/
def brokenTransportWithResponse : NeutronProvider :=
  { sampleProvider with
    floatingIPClient := { sampleProvider.floatingIPClient with
      ListFloatingIps := fun _ =>
        (some { Error := "stale" }, some (errors.New "connection refused")) } }

/-- The sample driver with a `DeleteNetwork` that fails with an error whose message is
the empty string. -/
def silentFailureDriver : Driver :=
  { sampleDriver with DeleteNetwork := fun _ => some (errors.New "") }

/-! ## Theorems -/

/-- C1: a `GetNetwork` request with both `Id` and `Name` set makes the dispatcher call
exactly the driver's `GetNetworkByID` with the request's `Id`, never the by-name
`GetNetwork`, and the response is the one built from the by-id outcome (its message in
`Error` when it failed, its network in `Network` otherwise); and whenever the by-name
lookup is called at all, `Id` is empty, `Name` is not, and the call carries `Name`. -/
theorem GetNetwork_id_takes_priority (h : KubeHandler) (req : GetNetworkRequest) :
    (req.Id ≠ "" → req.Name ≠ "" →
      (h.GetNetwork req).calls = [DriverCall.GetNetworkByID req.Id] ∧
      (∀ name, DriverCall.GetNetwork name ∉ (h.GetNetwork req).calls) ∧
      (h.GetNetwork req).out = Outcome.returned
        ((match (h.driver.GetNetworkByID req.Id).2 with
          | some err => ({ Error := err.Error } : GetNetworkResponse)
          | none => { Network := (h.driver.GetNetworkByID req.Id).1 }), none)) ∧
    (∀ name, DriverCall.GetNetwork name ∈ (h.GetNetwork req).calls →
      req.Id = "" ∧ req.Name ≠ "" ∧ name = req.Name) := by
  refine ⟨?_, ?_⟩
  · intro hid _
    simp [KubeHandler.GetNetwork, hid]
  · intro name hmem
    by_cases hid : req.Id = ""
    · by_cases hname : req.Name = ""
      · simp [KubeHandler.GetNetwork, hid, hname] at hmem
      · simp [KubeHandler.GetNetwork, hid, hname] at hmem
        exact ⟨hid, hname, hmem⟩
    · simp [KubeHandler.GetNetwork, hid] at hmem

/-- Witness of C1 on the sample driver, for the request with `Id` `n-42` and `Name`
`blue`: the by-id lookup alone is called and its network is the response. -/
theorem GetNetwork_id_takes_priority_witness :
    (({ driver := sampleDriver } : KubeHandler).GetNetwork { Id := "n-42", Name := "blue" }).calls
        = [DriverCall.GetNetworkByID "n-42"] ∧
      (({ driver := sampleDriver } : KubeHandler).GetNetwork { Id := "n-42", Name := "blue" }).out
        = Outcome.returned ({ Network := some { Uid := "n-42", Name := "by-id" } }, none) :=
  have key := (GetNetwork_id_takes_priority { driver := sampleDriver }
    { Id := "n-42", Name := "blue" }).1 (by decide) (by decide)
  ⟨key.1, key.2.2⟩

/-- C4: whenever a dispatcher handler returns a response whose `Error` is not empty,
every other field of that response has its zero value. The handlers with a result field
come first; the handlers answering with a `CommonResponse` have no other field, so their
response is the message that holds the error string and nothing else. -/
theorem dispatcher_error_excludes_result (h : KubeHandler) :
    (∀ req resp err, (h.CheckTenantID req).out = Outcome.returned (resp, err) →
      resp.Error ≠ "" → resp.Result = false) ∧
    (∀ req resp err, (h.GetNetwork req).out = Outcome.returned (resp, err) →
      resp.Error ≠ "" → resp.Network = none) ∧
    (∀ req resp err, (h.ListNetworks req).out = Outcome.returned (resp, err) →
      resp.Error ≠ "" → resp.Networks = []) ∧
    (∀ req resp err, (h.ListSubnets req).out = Outcome.returned (resp, err) →
      resp.Error ≠ "" → resp.Subnets = []) ∧
    (∀ req resp err, (h.GetSubnet req).out = Outcome.returned (resp, err) →
      resp.Error ≠ "" → resp.Subnet = none) ∧
    (∀ req resp err, (h.GetLoadBalancer req).out = Outcome.returned (resp, err) →
      resp.Error ≠ "" → resp.LoadBalancer = none) ∧
    (∀ req resp err, (h.CreateLoadBalancer req).out = Outcome.returned (resp, err) →
      resp.Error ≠ "" → resp.Vip = "") ∧
    (∀ req resp err, (h.UpdateLoadBalancer req).out = Outcome.returned (resp, err) →
      resp.Error ≠ "" → resp.Vip = "") ∧
    (∀ req resp err, (h.PodStatus req).out = Outcome.returned (resp, err) →
      resp.Error ≠ "" → resp.Ip = "") ∧
    (∀ (run : Run DriverCall (CommonResponse × error)) resp err,
      (∃ req, run = h.CreateNetwork req) ∨ (∃ req, run = h.UpdateNetwork req) ∨
      (∃ req, run = h.DeleteNetwork req) ∨ (∃ req, run = h.CreateSubnet req) ∨
      (∃ req, run = h.DeleteSubnet req) ∨ (∃ req, run = h.UpdateSubnet req) ∨
      (∃ req, run = h.ConnectSubnets req) ∨ (∃ req, run = h.DeleteLoadBalancer req) ∨
      (∃ req, run = h.SetupPod req) ∨ (∃ req, run = h.TeardownPod req) →
      run.out = Outcome.returned (resp, err) →
      resp.Error ≠ "" → resp = { Error := resp.Error }) := by
  refine ⟨?_, ?_, ?_, ?_, ?_, ?_, ?_, ?_, ?_, ?_⟩
  · intro req resp err hout hne
    simp only [KubeHandler.CheckTenantID] at hout
    cases hd : (h.driver.CheckTenantID req.TenantID).2 <;> simp [hd] at hout
    · obtain ⟨rfl, -⟩ := hout
      simp at hne
    · obtain ⟨rfl, -⟩ := hout
      rfl
  · intro req resp err hout hne
    simp only [KubeHandler.GetNetwork] at hout
    split at hout <;> simp at hout
    · obtain ⟨rfl, -⟩ := hout
      rfl
    · obtain ⟨rfl, -⟩ := hout
      simp at hne
  · intro req resp err hout hne
    simp only [KubeHandler.ListNetworks] at hout
    cases hd : (h.driver.ListNetworks req.TenantID).2 <;> simp [hd] at hout
    · obtain ⟨rfl, -⟩ := hout
      simp at hne
    · obtain ⟨rfl, -⟩ := hout
      rfl
  · intro req resp err hout hne
    simp only [KubeHandler.ListSubnets] at hout
    cases hd : (h.driver.ListSubnets req.NetworkID).2 <;> simp [hd] at hout
    · obtain ⟨rfl, -⟩ := hout
      simp at hne
    · obtain ⟨rfl, -⟩ := hout
      rfl
  · intro req resp err hout hne
    simp only [KubeHandler.GetSubnet] at hout
    cases hd : (h.driver.GetSubnet req.SubnetID).2 <;> simp [hd] at hout
    · obtain ⟨rfl, -⟩ := hout
      simp at hne
    · obtain ⟨rfl, -⟩ := hout
      rfl
  · intro req resp err hout hne
    simp only [KubeHandler.GetLoadBalancer] at hout
    cases hd : (h.driver.GetLoadBalancer req.Name).2 <;> simp [hd] at hout
    · obtain ⟨rfl, -⟩ := hout
      simp at hne
    · obtain ⟨rfl, -⟩ := hout
      rfl
  · intro req resp err hout hne
    simp only [KubeHandler.CreateLoadBalancer] at hout
    split at hout
    · simp at hout
    · simp only [Outcome.returned.injEq, Prod.mk.injEq] at hout
      obtain ⟨rfl, -⟩ := hout
      split
      · rfl
      · rename_i hd
        simp [hd] at hne
  · intro req resp err hout hne
    simp only [KubeHandler.UpdateLoadBalancer] at hout
    cases hd : (h.driver.UpdateLoadBalancer req.Name req.Hosts req.ExternalIPs).2 <;>
      simp [hd] at hout
    · obtain ⟨rfl, -⟩ := hout
      simp at hne
    · obtain ⟨rfl, -⟩ := hout
      rfl
  · intro req resp err hout hne
    simp only [KubeHandler.PodStatus] at hout
    split at hout <;> simp at hout
    · obtain ⟨rfl, -⟩ := hout
      rfl
    · obtain ⟨rfl, -⟩ := hout
      simp at hne
  · intro run resp err _ _ _
    rfl

/-- Witness of C4 on the failing driver: the by-id lookup hands back a network next to
its error, and the response carries the error string and a nil `Network`. -/
theorem dispatcher_error_excludes_result_witness :
    (({ driver := failingDriver } : KubeHandler).GetNetwork { Id := "n-42" }).out
        = Outcome.returned (({ Error := "boom" } : GetNetworkResponse), none) ∧
      ({ Error := "boom" } : GetNetworkResponse).Error ≠ "" ∧
      ({ Error := "boom" } : GetNetworkResponse).Network = none :=
  ⟨rfl, by decide,
    (dispatcher_error_excludes_result { driver := failingDriver }).2.1
      { Id := "n-42" } { Error := "boom" } none rfl (by decide)⟩

/-- C5: for a `CreateNetwork`, `CreateSubnet` or `CreateLoadBalancer` request whose
resource carries the tenant value `t`, the dispatcher asks the driver for `ToTenantID t`
and then calls the driver's create method once, with a resource whose tenant field is
`ToTenantID t`; the three families do the same. -/
theorem create_paths_normalize_tenant (h : KubeHandler) :
    (∀ (req : CreateNetworkRequest) (network : Network), req.Network = some network →
      ∃ handed : Network,
        (h.CreateNetwork req).calls
          = [DriverCall.ToTenantID network.TenantID, DriverCall.CreateNetwork (some handed)] ∧
        handed.TenantID = h.driver.ToTenantID network.TenantID) ∧
    (∀ (req : CreateSubnetRequest) (subnet : Subnet), req.Subnet = some subnet →
      ∃ handed : Subnet,
        (h.CreateSubnet req).calls
          = [DriverCall.ToTenantID subnet.Tenantid, DriverCall.CreateSubnet (some handed)] ∧
        handed.Tenantid = h.driver.ToTenantID subnet.Tenantid) ∧
    (∀ (req : CreateLoadBalancerRequest) (lb : LoadBalancer), req.LoadBalancer = some lb →
      ∃ handed : LoadBalancer,
        (h.CreateLoadBalancer req).calls
          = [DriverCall.ToTenantID lb.TenantID,
              DriverCall.CreateLoadBalancer (some handed) req.Affinity] ∧
        handed.TenantID = h.driver.ToTenantID lb.TenantID) := by
  refine ⟨?_, ?_, ?_⟩
  · intro req network hreq
    exact ⟨{ network with TenantID := h.driver.ToTenantID network.TenantID },
      by simp [KubeHandler.CreateNetwork, hreq], rfl⟩
  · intro req subnet hreq
    exact ⟨{ subnet with Tenantid := h.driver.ToTenantID subnet.Tenantid },
      by simp [KubeHandler.CreateSubnet, hreq], rfl⟩
  · intro req lb hreq
    exact ⟨{ lb with TenantID := h.driver.ToTenantID lb.TenantID },
      by simp [KubeHandler.CreateLoadBalancer, hreq], rfl⟩

/-- Witness of C5 on the sample driver, which maps the tenant `t1` to `id-t1`: the
network `net1` of tenant `t1` reaches the driver's `CreateNetwork` with a tenant field
that is `ToTenantID` of `t1`. -/
theorem create_paths_normalize_tenant_witness :
    ∃ handed : Network,
      (({ driver := sampleDriver } : KubeHandler).CreateNetwork
          { Network := some { Name := "net1", TenantID := "t1" } }).calls
        = [DriverCall.ToTenantID "t1", DriverCall.CreateNetwork (some handed)] ∧
      handed.TenantID = sampleDriver.ToTenantID "t1" :=
  (create_paths_normalize_tenant { driver := sampleDriver }).1
    { Network := some { Name := "net1", TenantID := "t1" } }
    { Name := "net1", TenantID := "t1" } rfl

/-- The update path of networks rewrites the tenant through `ToTenantID`, as the create
paths do. -/
theorem UpdateNetwork_normalizes_tenant (h : KubeHandler) (req : UpdateNetworkRequest)
    (network : Network) (hreq : req.Network = some network) :
    (h.UpdateNetwork req).calls
      = [DriverCall.ToTenantID network.TenantID,
          DriverCall.UpdateNetwork
            (some { network with TenantID := h.driver.ToTenantID network.TenantID })] := by
  simp [KubeHandler.UpdateNetwork, hreq]

/-- C6: the update path of subnets does not normalize the tenant. For every request the
dispatcher's `UpdateSubnet` makes one driver call, `UpdateSubnet` with the request's
subnet as it came, and never asks for `ToTenantID`; on the sample driver, which maps
`demo` to `id-demo`, the subnet of tenant `demo` reaches the driver with tenant `demo`,
while the network of tenant `demo` reaches `UpdateNetwork` with tenant `id-demo`. -/
theorem UpdateSubnet_skips_tenant_normalization :
    (∀ (h : KubeHandler) (req : UpdateSubnetRequest),
      (h.UpdateSubnet req).calls = [DriverCall.UpdateSubnet req.Subnet]) ∧
    (({ driver := sampleDriver } : KubeHandler).UpdateSubnet
        { Subnet := some { Uid := "s1", Tenantid := "demo" } }).calls
      = [DriverCall.UpdateSubnet (some { Uid := "s1", Tenantid := "demo" })] ∧
    sampleDriver.ToTenantID "demo" = "id-demo" ∧
    sampleDriver.ToTenantID "demo" ≠ "demo" ∧
    (({ driver := sampleDriver } : KubeHandler).UpdateNetwork
        { Network := some { Uid := "n1", TenantID := "demo" } }).calls
      = [DriverCall.ToTenantID "demo",
          DriverCall.UpdateNetwork (some { Uid := "n1", TenantID := "id-demo" })] := by
  refine ⟨fun h req => rfl, rfl, by decide, by decide, by decide⟩

/-- C7: the stub's `BindFloatingIp` with an empty port id or an empty floating-IP id
makes no remote call and returns a non-nil error; with both non-empty it makes exactly
one remote call, `BindFloatingIp` carrying these two values. -/
theorem BindFloatingIp_validates_ids (r : NeutronProvider) (protId floatingipId : String) :
    (protId = "" ∨ floatingipId = "" →
      (r.BindFloatingIp protId floatingipId).calls = [] ∧
      ∃ err : GoError, (r.BindFloatingIp protId floatingipId).out = Outcome.returned (some err)) ∧
    (protId ≠ "" → floatingipId ≠ "" →
      (r.BindFloatingIp protId floatingipId).calls
        = [RpcCall.BindFloatingIp { PortId := protId, FloatingipId := floatingipId }]) := by
  refine ⟨?_, ?_⟩
  · intro hempty
    simp [NeutronProvider.BindFloatingIp, hempty]
  · intro hp hf
    simp [NeutronProvider.BindFloatingIp, hp, hf]

/-- Witness of C7: scenario 2 of the spec, an empty `PortId` with the floating-IP id
`fip1`, and a well-formed bind of port `p1`. -/
theorem BindFloatingIp_validates_ids_witness :
    ((sampleProvider.BindFloatingIp "" "fip1").calls = [] ∧
      ∃ err : GoError, (sampleProvider.BindFloatingIp "" "fip1").out
        = Outcome.returned (some err)) ∧
    (sampleProvider.BindFloatingIp "p1" "fip1").calls
      = [RpcCall.BindFloatingIp { PortId := "p1", FloatingipId := "fip1" }] :=
  ⟨(BindFloatingIp_validates_ids sampleProvider "" "fip1").1 (Or.inl rfl),
    (BindFloatingIp_validates_ids sampleProvider "p1" "fip1").2 (by decide) (by decide)⟩

/-- C8: the stub's `DelFloatingIp` and `DeleteNetwork` with an empty identifier make no
remote call and return a non-nil error; with a non-empty identifier each makes its
remote call, once, carrying that identifier. -/
theorem delete_stubs_validate_id (r : NeutronProvider) (id : String) :
    (id = "" →
      ((r.DelFloatingIp id).calls = [] ∧
        ∃ err : GoError, (r.DelFloatingIp id).out = Outcome.returned (some err)) ∧
      ((r.DeleteNetwork id).calls = [] ∧
        ∃ err : GoError, (r.DeleteNetwork id).out = Outcome.returned (some err))) ∧
    (id ≠ "" →
      (r.DelFloatingIp id).calls = [RpcCall.DelFloatingIp { FloatingipId := id }] ∧
      (r.DeleteNetwork id).calls = [RpcCall.DeleteNetwork { NetworkID := id }]) := by
  refine ⟨?_, ?_⟩
  · intro hempty
    simp [NeutronProvider.DelFloatingIp, NeutronProvider.DeleteNetwork, hempty]
  · intro hid
    simp [NeutronProvider.DelFloatingIp, NeutronProvider.DeleteNetwork, hid]

/-- Witness of C8 for the empty identifier and for the identifier `x1`. -/
theorem delete_stubs_validate_id_witness :
    (((sampleProvider.DelFloatingIp "").calls = [] ∧
        ∃ err : GoError, (sampleProvider.DelFloatingIp "").out = Outcome.returned (some err)) ∧
      ((sampleProvider.DeleteNetwork "").calls = [] ∧
        ∃ err : GoError, (sampleProvider.DeleteNetwork "").out = Outcome.returned (some err))) ∧
    ((sampleProvider.DelFloatingIp "x1").calls = [RpcCall.DelFloatingIp { FloatingipId := "x1" }] ∧
      (sampleProvider.DeleteNetwork "x1").calls = [RpcCall.DeleteNetwork { NetworkID := "x1" }]) :=
  ⟨(delete_stubs_validate_id sampleProvider "").1 rfl,
    (delete_stubs_validate_id sampleProvider "x1").2 (by decide)⟩

/-- C9, refuted: on the sample collaborators a `DeleteSubnet` with an empty `SubnetID`
and the network id `net1` is not cut short. The stub makes the remote call with the
empty id, and the dispatcher calls the driver's `DeleteSubnet` with it and answers with
an empty `Error`. -/
theorem DeleteSubnet_empty_id_reaches_backend :
    (sampleProvider.DeleteSubnet "" "net1").calls
      = [RpcCall.DeleteSubnet { SubnetID := "", NetworkID := "net1" }] ∧
    (({ driver := sampleDriver } : KubeHandler).DeleteSubnet
        { SubnetID := "", NetworkID := "net1" }).calls
      = [DriverCall.DeleteSubnet "" "net1"] ∧
    (({ driver := sampleDriver } : KubeHandler).DeleteSubnet
        { SubnetID := "", NetworkID := "net1" }).out
      = Outcome.returned (({ Error := "" } : CommonResponse), none) :=
  ⟨rfl, rfl, rfl⟩

/-- C9, amended: the dispatcher's `DeleteSubnet` tests nothing. For every request, also
one with an empty `SubnetID`, it calls the driver's `DeleteSubnet` once with the
request's `SubnetID` and `NetworkID`, and its `Error` is the message of the driver's
error, or empty when the driver reports none. -/
theorem DeleteSubnet_dispatcher_forwards (h : KubeHandler) (req : DeleteSubnetRequest) :
    (h.DeleteSubnet req).calls = [DriverCall.DeleteSubnet req.SubnetID req.NetworkID] ∧
    (h.DeleteSubnet req).out = Outcome.returned
      (({ Error := match h.driver.DeleteSubnet req.SubnetID req.NetworkID with
                   | some err => err.Error
                   | none => "" } : CommonResponse), none) := by
  refine ⟨rfl, ?_⟩
  simp only [KubeHandler.DeleteSubnet]
  cases h.driver.DeleteSubnet req.SubnetID req.NetworkID <;> rfl

/-- The parts of C10 that hold: a failed dial or a failed `Active` call makes
`InitNeutronProviders` return that error and no provider, and an `Active` answer with
`Result: true` makes it return the provider over the connection with a nil error. -/
theorem InitNeutronProviders_sound_cases (dial : String → Option ClientConn × error)
    (remoteAddr : String) :
    (∀ conn err, dial remoteAddr = (conn, some err) →
      (InitNeutronProviders dial remoteAddr).out = Outcome.returned (none, some err)) ∧
    (∀ conn resp err, dial remoteAddr = (some conn, none) →
      conn.networks.Active {} = (resp, some err) →
      (InitNeutronProviders dial remoteAddr).out = Outcome.returned (none, some err)) ∧
    (∀ conn resp, dial remoteAddr = (some conn, none) →
      conn.networks.Active {} = (some resp, none) → resp.Result = true →
      (InitNeutronProviders dial remoteAddr).out = Outcome.returned (some {
        server := remoteAddr
        networkClient := conn.networks
        podClient := conn.pods
        loadbalancerClient := conn.loadBalancers
        subnetClient := conn.subnets
        floatingIPClient := conn.floatingIPs }, none)) := by
  refine ⟨?_, ?_, ?_⟩
  · intro conn err hd
    simp [InitNeutronProviders, hd]
  · intro conn resp err hd ha
    simp [InitNeutronProviders, hd, types.NewNetworksClient, ha]
  · intro conn resp hd ha hres
    simp [InitNeutronProviders, hd, types.NewNetworksClient, types.NewPodsClient,
      types.NewLoadBalancersClient, types.NewSubnetsClient, types.NewFloatingIPsClient, ha, hres]

/-- A provider comes out of `InitNeutronProviders` only next to a nil error, and only
when the dial succeeded and the `Active` probe succeeded with `Result: true`. -/
theorem InitNeutronProviders_provider_only_when_active
    (dial : String → Option ClientConn × error) (remoteAddr : String)
    (p : NeutronProvider) (err : error)
    (hout : (InitNeutronProviders dial remoteAddr).out = Outcome.returned (some p, err)) :
    err = none ∧ ∃ conn resp, dial remoteAddr = (some conn, none) ∧
      conn.networks.Active {} = (some resp, none) ∧ resp.Result = true := by
  unfold InitNeutronProviders at hout
  split at hout
  · simp at hout
  · simp at hout
  · rename_i conn hd
    simp only [types.NewNetworksClient] at hout
    split at hout
    · simp at hout
    · simp at hout
    · rename_i resp ha
      by_cases hres : resp.Result = true
      · simp [hres] at hout
        exact ⟨hout.2.symm, conn, resp, hd, ha, hres⟩
      · simp [hres] at hout

/-- C10: over a connection whose `Active` probe succeeds with `Result: false`, both
versions of `InitNeutronProviders` make the probe and then return no provider together
with a nil error. -/
theorem InitNeutronProviders_inactive_returns_nil_error :
    (InitNeutronProviders (fun _ => (some inactiveConn, none)) "10.10.101.79:4237").calls
      = [RpcCall.Active {}] ∧
    (InitNeutronProviders (fun _ => (some inactiveConn, none)) "10.10.101.79:4237").out
      = Outcome.returned (none, none) ∧
    (RootClient.InitNeutronProviders (fun _ => (some inactiveConn, none))
        "10.10.101.79:4237").out
      = Outcome.returned (none, none) :=
  ⟨rfl, rfl, rfl⟩

/-- The part of C2 that holds: every stub method other than `ListFloatingIps` turns a
non-empty in-band `Error`, received over a transport call that succeeded, into the
error `errors.New(resp.Error)` next to a zero result. The methods that format a field of
their resource argument in the warning need that argument to be non-nil. -/
theorem stub_surfaces_in_band_error (r : NeutronProvider) :
    (∀ tenantId resp, r.floatingIPClient.CreateFloatingIp { TenantID := tenantId }
        = (some resp, none) → resp.Error ≠ "" →
      (r.CreateFloatingIp tenantId).out
        = Outcome.returned (none, some (errors.New resp.Error))) ∧
    (∀ protId floatingipId resp, protId ≠ "" → floatingipId ≠ "" →
      r.floatingIPClient.BindFloatingIp { PortId := protId, FloatingipId := floatingipId }
        = (some resp, none) → resp.Error ≠ "" →
      (r.BindFloatingIp protId floatingipId).out
        = Outcome.returned (some (errors.New resp.Error))) ∧
    (∀ portName tenantID resp,
      r.floatingIPClient.BindPortToExternal { PortName := portName, TenantID := tenantID }
        = (some resp, none) → resp.Error ≠ "" →
      (r.BindPortToExternal portName tenantID).out
        = Outcome.returned ("", some (errors.New resp.Error))) ∧
    (∀ portName resp, r.floatingIPClient.UnbindPortFromExternal { PortName := portName }
        = (some resp, none) → resp.Error ≠ "" →
      (r.UnbindPortFromExternal portName).out
        = Outcome.returned (some (errors.New resp.Error))) ∧
    (∀ floatingipId resp, floatingipId ≠ "" →
      r.floatingIPClient.DelFloatingIp { FloatingipId := floatingipId }
        = (some resp, none) → resp.Error ≠ "" →
      (r.DelFloatingIp floatingipId).out = Outcome.returned (some (errors.New resp.Error))) ∧
    (∀ networkName resp, networkName ≠ "" →
      r.networkClient.GetNetwork { Name := networkName } = (some resp, none) →
      resp.Error ≠ "" →
      (r.GetNetwork networkName).out
        = Outcome.returned (none, some (errors.New resp.Error))) ∧
    (∀ networkID resp, networkID ≠ "" →
      r.networkClient.GetNetwork { Id := networkID } = (some resp, none) →
      resp.Error ≠ "" →
      (r.GetNetworkByID networkID).out
        = Outcome.returned (none, some (errors.New resp.Error))) ∧
    (∀ network resp, r.networkClient.CreateNetwork { Network := some network }
        = (some resp, none) → resp.Error ≠ "" →
      (r.CreateNetwork (some network)).out
        = Outcome.returned (some (errors.New resp.Error))) ∧
    (∀ network resp, r.networkClient.UpdateNetwork { Network := some network }
        = (some resp, none) → resp.Error ≠ "" →
      (r.UpdateNetwork (some network)).out
        = Outcome.returned (some (errors.New resp.Error))) ∧
    (∀ networkID resp, networkID ≠ "" →
      r.networkClient.DeleteNetwork { NetworkID := networkID } = (some resp, none) →
      resp.Error ≠ "" →
      (r.DeleteNetwork networkID).out = Outcome.returned (some (errors.New resp.Error))) ∧
    (∀ tenantID resp, r.networkClient.ListNetworks { TenantID := tenantID }
        = (some resp, none) → resp.Error ≠ "" →
      (r.ListNetworks tenantID).out
        = Outcome.returned ([], some (errors.New resp.Error))) ∧
    (∀ networkID resp, r.subnetClient.ListSubnets { NetworkID := networkID }
        = (some resp, none) → resp.Error ≠ "" →
      (r.ListSubnets networkID).out
        = Outcome.returned ([], some (errors.New resp.Error))) ∧
    (∀ subnet resp, r.subnetClient.CreateSubnet { Subnet := some subnet }
        = (some resp, none) → resp.Error ≠ "" →
      (r.CreateSubnet (some subnet)).out
        = Outcome.returned (some (errors.New resp.Error))) ∧
    (∀ subnetID networkID resp,
      r.subnetClient.DeleteSubnet { SubnetID := subnetID, NetworkID := networkID }
        = (some resp, none) → resp.Error ≠ "" →
      (r.DeleteSubnet subnetID networkID).out
        = Outcome.returned (some (errors.New resp.Error))) ∧
    (∀ subnet resp, r.subnetClient.UpdateSubnet { Subnet := some subnet }
        = (some resp, none) → resp.Error ≠ "" →
      (r.UpdateSubnet (some subnet)).out
        = Outcome.returned (some (errors.New resp.Error))) ∧
    (∀ podName ns infra network runtime subnetID resp,
      r.podClient.SetupPod {
          PodName := podName, Namespace := ns, PodInfraContainerID := infra
          ContainerRuntime := runtime, Network := network, SubnetID := subnetID }
        = (some resp, none) → resp.Error ≠ "" →
      (r.SetupPod podName ns infra network runtime subnetID).out
        = Outcome.returned (some (errors.New resp.Error))) ∧
    (∀ podName ns infra network runtime resp,
      r.podClient.TeardownPod {
          PodName := podName, Namespace := ns, PodInfraContainerID := infra
          ContainerRuntime := runtime, Network := network }
        = (some resp, none) → resp.Error ≠ "" →
      (r.TeardownPod podName ns infra network runtime).out
        = Outcome.returned (some (errors.New resp.Error))) ∧
    (∀ podName ns infra network runtime resp,
      r.podClient.PodStatus {
          PodName := podName, Namespace := ns, PodInfraContainerID := infra
          ContainerRuntime := runtime, Network := network }
        = (some resp, none) → resp.Error ≠ "" →
      (r.PodStatus podName ns infra network runtime).out
        = Outcome.returned ("", some (errors.New resp.Error))) := by
  refine ⟨?_, ?_, ?_, ?_, ?_, ?_, ?_, ?_, ?_, ?_, ?_, ?_, ?_, ?_, ?_, ?_, ?_, ?_⟩
  · intro tenantId resp ht he
    simp [NeutronProvider.CreateFloatingIp, ht, he]
  · intro protId floatingipId resp hp hf ht he
    simp [NeutronProvider.BindFloatingIp, hp, hf, ht, he]
  · intro portName tenantID resp ht he
    simp [NeutronProvider.BindPortToExternal, ht, he]
  · intro portName resp ht he
    simp [NeutronProvider.UnbindPortFromExternal, ht, he]
  · intro floatingipId resp hid ht he
    simp [NeutronProvider.DelFloatingIp, hid, ht, he]
  · intro networkName resp hid ht he
    simp [NeutronProvider.GetNetwork, hid, ht, he]
  · intro networkID resp hid ht he
    simp [NeutronProvider.GetNetworkByID, hid, ht, he]
  · intro network resp ht he
    simp [NeutronProvider.CreateNetwork, readThrough, ht, he]
  · intro network resp ht he
    simp [NeutronProvider.UpdateNetwork, readThrough, ht, he]
  · intro networkID resp hid ht he
    simp [NeutronProvider.DeleteNetwork, hid, ht, he]
  · intro tenantID resp ht he
    simp [NeutronProvider.ListNetworks, ht, he]
  · intro networkID resp ht he
    simp [NeutronProvider.ListSubnets, ht, he]
  · intro subnet resp ht he
    simp [NeutronProvider.CreateSubnet, readThrough, ht, he]
  · intro subnetID networkID resp ht he
    simp [NeutronProvider.DeleteSubnet, ht, he]
  · intro subnet resp ht he
    simp [NeutronProvider.UpdateSubnet, readThrough, ht, he]
  · intro podName ns infra network runtime subnetID resp ht he
    simp [NeutronProvider.SetupPod, ht, he]
  · intro podName ns infra network runtime resp ht he
    simp [NeutronProvider.TeardownPod, ht, he]
  · intro podName ns infra network runtime resp ht he
    simp [NeutronProvider.PodStatus, ht, he]

/-- C2: `ListFloatingIps` over a transport call that succeeds with the in-band error
`boom` (and one floating IP next to it) makes the remote call and returns a nil result
with a nil error. -/
theorem ListFloatingIps_drops_in_band_error :
    (inBandErrorProvider.floatingIPClient.ListFloatingIps { FloatingNetworkID := "ext-net" })
      = (some { Floatings := [{ Id := "fip1" }], Error := "boom" }, none) ∧
    (inBandErrorProvider.ListFloatingIps "ext-net").calls
      = [RpcCall.ListFloatingIps { FloatingNetworkID := "ext-net" }] ∧
    (inBandErrorProvider.ListFloatingIps "ext-net").out = Outcome.returned ([], none) :=
  ⟨rfl, rfl, by decide⟩

/-- The part of C3 that holds: when the transport call fails with the error `err`, every
stub method other than `ListFloatingIps` returns that `err` next to a zero result,
whatever response pointer came with it (the response is not read). The methods that
format a field of their resource argument in the warning need that argument to be
non-nil. -/
theorem stub_returns_transport_error (r : NeutronProvider) (err : GoError) :
    (∀ tenantId resp, r.floatingIPClient.CreateFloatingIp { TenantID := tenantId }
        = (resp, some err) →
      (r.CreateFloatingIp tenantId).out = Outcome.returned (none, some err)) ∧
    (∀ protId floatingipId resp, protId ≠ "" → floatingipId ≠ "" →
      r.floatingIPClient.BindFloatingIp { PortId := protId, FloatingipId := floatingipId }
        = (resp, some err) →
      (r.BindFloatingIp protId floatingipId).out = Outcome.returned (some err)) ∧
    (∀ portName tenantID resp,
      r.floatingIPClient.BindPortToExternal { PortName := portName, TenantID := tenantID }
        = (resp, some err) →
      (r.BindPortToExternal portName tenantID).out = Outcome.returned ("", some err)) ∧
    (∀ portName resp, r.floatingIPClient.UnbindPortFromExternal { PortName := portName }
        = (resp, some err) →
      (r.UnbindPortFromExternal portName).out = Outcome.returned (some err)) ∧
    (∀ floatingipId resp, floatingipId ≠ "" →
      r.floatingIPClient.DelFloatingIp { FloatingipId := floatingipId } = (resp, some err) →
      (r.DelFloatingIp floatingipId).out = Outcome.returned (some err)) ∧
    (∀ networkName resp, networkName ≠ "" →
      r.networkClient.GetNetwork { Name := networkName } = (resp, some err) →
      (r.GetNetwork networkName).out = Outcome.returned (none, some err)) ∧
    (∀ networkID resp, networkID ≠ "" →
      r.networkClient.GetNetwork { Id := networkID } = (resp, some err) →
      (r.GetNetworkByID networkID).out = Outcome.returned (none, some err)) ∧
    (∀ network resp, r.networkClient.CreateNetwork { Network := some network }
        = (resp, some err) →
      (r.CreateNetwork (some network)).out = Outcome.returned (some err)) ∧
    (∀ network resp, r.networkClient.UpdateNetwork { Network := some network }
        = (resp, some err) →
      (r.UpdateNetwork (some network)).out = Outcome.returned (some err)) ∧
    (∀ networkID resp, networkID ≠ "" →
      r.networkClient.DeleteNetwork { NetworkID := networkID } = (resp, some err) →
      (r.DeleteNetwork networkID).out = Outcome.returned (some err)) ∧
    (∀ tenantID resp, r.networkClient.ListNetworks { TenantID := tenantID }
        = (resp, some err) →
      (r.ListNetworks tenantID).out = Outcome.returned ([], some err)) ∧
    (∀ networkID resp, r.subnetClient.ListSubnets { NetworkID := networkID }
        = (resp, some err) →
      (r.ListSubnets networkID).out = Outcome.returned ([], some err)) ∧
    (∀ subnet resp, r.subnetClient.CreateSubnet { Subnet := some subnet }
        = (resp, some err) →
      (r.CreateSubnet (some subnet)).out = Outcome.returned (some err)) ∧
    (∀ subnetID networkID resp,
      r.subnetClient.DeleteSubnet { SubnetID := subnetID, NetworkID := networkID }
        = (resp, some err) →
      (r.DeleteSubnet subnetID networkID).out = Outcome.returned (some err)) ∧
    (∀ subnet resp, r.subnetClient.UpdateSubnet { Subnet := some subnet }
        = (resp, some err) →
      (r.UpdateSubnet (some subnet)).out = Outcome.returned (some err)) ∧
    (∀ podName ns infra network runtime subnetID resp,
      r.podClient.SetupPod {
          PodName := podName, Namespace := ns, PodInfraContainerID := infra
          ContainerRuntime := runtime, Network := network, SubnetID := subnetID }
        = (resp, some err) →
      (r.SetupPod podName ns infra network runtime subnetID).out
        = Outcome.returned (some err)) ∧
    (∀ podName ns infra network runtime resp,
      r.podClient.TeardownPod {
          PodName := podName, Namespace := ns, PodInfraContainerID := infra
          ContainerRuntime := runtime, Network := network }
        = (resp, some err) →
      (r.TeardownPod podName ns infra network runtime).out = Outcome.returned (some err)) ∧
    (∀ podName ns infra network runtime resp,
      r.podClient.PodStatus {
          PodName := podName, Namespace := ns, PodInfraContainerID := infra
          ContainerRuntime := runtime, Network := network }
        = (resp, some err) →
      (r.PodStatus podName ns infra network runtime).out
        = Outcome.returned ("", some err)) := by
  refine ⟨?_, ?_, ?_, ?_, ?_, ?_, ?_, ?_, ?_, ?_, ?_, ?_, ?_, ?_, ?_, ?_, ?_, ?_⟩
  · intro tenantId resp ht
    simp [NeutronProvider.CreateFloatingIp, ht]
  · intro protId floatingipId resp hp hf ht
    simp [NeutronProvider.BindFloatingIp, hp, hf, ht]
  · intro portName tenantID resp ht
    simp [NeutronProvider.BindPortToExternal, ht]
  · intro portName resp ht
    simp [NeutronProvider.UnbindPortFromExternal, ht]
  · intro floatingipId resp hid ht
    simp [NeutronProvider.DelFloatingIp, hid, ht]
  · intro networkName resp hid ht
    simp [NeutronProvider.GetNetwork, hid, ht]
  · intro networkID resp hid ht
    simp [NeutronProvider.GetNetworkByID, hid, ht]
  · intro network resp ht
    simp [NeutronProvider.CreateNetwork, readThrough, ht]
  · intro network resp ht
    simp [NeutronProvider.UpdateNetwork, readThrough, ht]
  · intro networkID resp hid ht
    simp [NeutronProvider.DeleteNetwork, hid, ht]
  · intro tenantID resp ht
    simp [NeutronProvider.ListNetworks, ht]
  · intro networkID resp ht
    simp [NeutronProvider.ListSubnets, ht]
  · intro subnet resp ht
    simp [NeutronProvider.CreateSubnet, readThrough, ht]
  · intro subnetID networkID resp ht
    simp [NeutronProvider.DeleteSubnet, ht]
  · intro subnet resp ht
    simp [NeutronProvider.UpdateSubnet, readThrough, ht]
  · intro podName ns infra network runtime subnetID resp ht
    simp [NeutronProvider.SetupPod, ht]
  · intro podName ns infra network runtime resp ht
    simp [NeutronProvider.TeardownPod, ht]
  · intro podName ns infra network runtime resp ht
    simp [NeutronProvider.PodStatus, ht]

/-- C3: `ListFloatingIps` over a transport call that fails with `connection refused`
does not return that error. With the nil response of the generated client it panics on
reading `resp.Error`; with a response next to the error it returns the response's
`Error` string `stale` as the error. -/
theorem ListFloatingIps_reads_response_on_transport_error :
    (brokenTransportProvider.floatingIPClient.ListFloatingIps { FloatingNetworkID := "ext-net" })
      = (none, some (errors.New "connection refused")) ∧
    (brokenTransportProvider.ListFloatingIps "ext-net").calls
      = [RpcCall.ListFloatingIps { FloatingNetworkID := "ext-net" }] ∧
    (brokenTransportProvider.ListFloatingIps "ext-net").out = Outcome.panicked ∧
    (brokenTransportWithResponse.ListFloatingIps "ext-net").out
      = Outcome.returned ([], some (errors.New "stale")) ∧
    errors.New "stale" ≠ errors.New "connection refused" :=
  ⟨rfl, rfl, by decide, by decide, by decide⟩

/-- The part of C11 that holds: every handler returns a response next to a nil error,
whatever the driver answers, for every request that carries the resource message the
handler reads (`CreateNetwork`, `UpdateNetwork`, `CreateSubnet` and `CreateLoadBalancer`
read theirs; the other handlers read none). -/
theorem handlers_return_nil_error (h : KubeHandler) :
    (∀ req, ∃ resp, (h.Active req).out = Outcome.returned (resp, none)) ∧
    (∀ req, ∃ resp, (h.CheckTenantID req).out = Outcome.returned (resp, none)) ∧
    (∀ req, ∃ resp, (h.GetNetwork req).out = Outcome.returned (resp, none)) ∧
    (∀ req, req.Network ≠ none →
      ∃ resp, (h.CreateNetwork req).out = Outcome.returned (resp, none)) ∧
    (∀ req, req.Network ≠ none →
      ∃ resp, (h.UpdateNetwork req).out = Outcome.returned (resp, none)) ∧
    (∀ req, ∃ resp, (h.DeleteNetwork req).out = Outcome.returned (resp, none)) ∧
    (∀ req, ∃ resp, (h.ListNetworks req).out = Outcome.returned (resp, none)) ∧
    (∀ req, ∃ resp, (h.ListSubnets req).out = Outcome.returned (resp, none)) ∧
    (∀ req, req.Subnet ≠ none →
      ∃ resp, (h.CreateSubnet req).out = Outcome.returned (resp, none)) ∧
    (∀ req, ∃ resp, (h.GetSubnet req).out = Outcome.returned (resp, none)) ∧
    (∀ req, ∃ resp, (h.DeleteSubnet req).out = Outcome.returned (resp, none)) ∧
    (∀ req, ∃ resp, (h.UpdateSubnet req).out = Outcome.returned (resp, none)) ∧
    (∀ req, ∃ resp, (h.ConnectSubnets req).out = Outcome.returned (resp, none)) ∧
    (∀ req, ∃ resp, (h.GetLoadBalancer req).out = Outcome.returned (resp, none)) ∧
    (∀ req, req.LoadBalancer ≠ none →
      ∃ resp, (h.CreateLoadBalancer req).out = Outcome.returned (resp, none)) ∧
    (∀ req, ∃ resp, (h.UpdateLoadBalancer req).out = Outcome.returned (resp, none)) ∧
    (∀ req, ∃ resp, (h.DeleteLoadBalancer req).out = Outcome.returned (resp, none)) ∧
    (∀ req, ∃ resp, (h.SetupPod req).out = Outcome.returned (resp, none)) ∧
    (∀ req, ∃ resp, (h.TeardownPod req).out = Outcome.returned (resp, none)) ∧
    (∀ req, ∃ resp, (h.PodStatus req).out = Outcome.returned (resp, none)) := by
  refine ⟨?_, ?_, ?_, ?_, ?_, ?_, ?_, ?_, ?_, ?_, ?_, ?_, ?_, ?_, ?_, ?_, ?_, ?_, ?_, ?_⟩
  · intro req; exact ⟨_, rfl⟩
  · intro req; exact ⟨_, rfl⟩
  · intro req; exact ⟨_, rfl⟩
  · intro req hreq
    cases hn : req.Network with
    | none => exact absurd hn hreq
    | some network => simp [KubeHandler.CreateNetwork, hn]
  · intro req hreq
    cases hn : req.Network with
    | none => exact absurd hn hreq
    | some network => simp [KubeHandler.UpdateNetwork, hn]
  · intro req; exact ⟨_, rfl⟩
  · intro req; exact ⟨_, rfl⟩
  · intro req; exact ⟨_, rfl⟩
  · intro req hreq
    cases hn : req.Subnet with
    | none => exact absurd hn hreq
    | some subnet => simp [KubeHandler.CreateSubnet, hn]
  · intro req; exact ⟨_, rfl⟩
  · intro req; exact ⟨_, rfl⟩
  · intro req; exact ⟨_, rfl⟩
  · intro req; exact ⟨_, rfl⟩
  · intro req; exact ⟨_, rfl⟩
  · intro req hreq
    cases hn : req.LoadBalancer with
    | none => exact absurd hn hreq
    | some lb => simp [KubeHandler.CreateLoadBalancer, hn]
  · intro req; exact ⟨_, rfl⟩
  · intro req; exact ⟨_, rfl⟩
  · intro req; exact ⟨_, rfl⟩
  · intro req; exact ⟨_, rfl⟩
  · intro req; exact ⟨_, rfl⟩

/-- C11: on a request that leaves its resource message out, `CreateNetwork`,
`UpdateNetwork`, `CreateSubnet` and `CreateLoadBalancer` return nothing: reading the
tenant field through the nil resource panics, on the sample driver as on any other. -/
theorem handlers_panic_on_absent_resource :
    (({ driver := sampleDriver } : KubeHandler).CreateNetwork { Network := none }).out
      = Outcome.panicked ∧
    (({ driver := sampleDriver } : KubeHandler).UpdateNetwork { Network := none }).out
      = Outcome.panicked ∧
    (({ driver := sampleDriver } : KubeHandler).CreateSubnet { Subnet := none }).out
      = Outcome.panicked ∧
    (({ driver := sampleDriver } : KubeHandler).CreateLoadBalancer
        { LoadBalancer := none, Affinity := "ClientIP" }).out
      = Outcome.panicked :=
  ⟨rfl, rfl, rfl, rfl⟩

/-- C12: when the response that reaches a result-bearing stub method carries a non-empty
`Error`, the method returns the zero value of its result (nil, the nil slice or the
empty string), whatever the result field of the response holds and whatever transport
error came with the response. -/
theorem stub_error_response_gives_zero_result (r : NeutronProvider) :
    (∀ tenantId resp terr,
      r.floatingIPClient.CreateFloatingIp { TenantID := tenantId } = (some resp, terr) →
      resp.Error ≠ "" →
      ∃ err, (r.CreateFloatingIp tenantId).out = Outcome.returned (none, err)) ∧
    (∀ portName tenantID resp terr,
      r.floatingIPClient.BindPortToExternal { PortName := portName, TenantID := tenantID }
        = (some resp, terr) →
      resp.Error ≠ "" →
      ∃ err, (r.BindPortToExternal portName tenantID).out = Outcome.returned ("", err)) ∧
    (∀ floatingNetworkID resp terr,
      r.floatingIPClient.ListFloatingIps { FloatingNetworkID := floatingNetworkID }
        = (some resp, terr) →
      resp.Error ≠ "" →
      ∃ err, (r.ListFloatingIps floatingNetworkID).out = Outcome.returned ([], err)) ∧
    (∀ networkName resp terr,
      r.networkClient.GetNetwork { Name := networkName } = (some resp, terr) →
      resp.Error ≠ "" →
      ∃ err, (r.GetNetwork networkName).out = Outcome.returned (none, err)) ∧
    (∀ networkID resp terr,
      r.networkClient.GetNetwork { Id := networkID } = (some resp, terr) →
      resp.Error ≠ "" →
      ∃ err, (r.GetNetworkByID networkID).out = Outcome.returned (none, err)) ∧
    (∀ tenantID resp terr,
      r.networkClient.ListNetworks { TenantID := tenantID } = (some resp, terr) →
      resp.Error ≠ "" →
      ∃ err, (r.ListNetworks tenantID).out = Outcome.returned ([], err)) ∧
    (∀ networkID resp terr,
      r.subnetClient.ListSubnets { NetworkID := networkID } = (some resp, terr) →
      resp.Error ≠ "" →
      ∃ err, (r.ListSubnets networkID).out = Outcome.returned ([], err)) ∧
    (∀ podName ns infra network runtime resp terr,
      r.podClient.PodStatus {
          PodName := podName, Namespace := ns, PodInfraContainerID := infra
          ContainerRuntime := runtime, Network := network }
        = (some resp, terr) →
      resp.Error ≠ "" →
      ∃ err, (r.PodStatus podName ns infra network runtime).out
        = Outcome.returned ("", err)) := by
  refine ⟨?_, ?_, ?_, ?_, ?_, ?_, ?_, ?_⟩
  · intro tenantId resp terr ht he
    cases terr <;> simp [NeutronProvider.CreateFloatingIp, ht, he]
  · intro portName tenantID resp terr ht he
    cases terr <;> simp [NeutronProvider.BindPortToExternal, ht, he]
  · intro floatingNetworkID resp terr ht he
    cases terr <;> simp [NeutronProvider.ListFloatingIps, ht, he]
  · intro networkName resp terr ht he
    by_cases hn : networkName = ""
    · simp [NeutronProvider.GetNetwork, hn]
    · cases terr <;> simp [NeutronProvider.GetNetwork, hn, ht, he]
  · intro networkID resp terr ht he
    by_cases hn : networkID = ""
    · simp [NeutronProvider.GetNetworkByID, hn]
    · cases terr <;> simp [NeutronProvider.GetNetworkByID, hn, ht, he]
  · intro tenantID resp terr ht he
    cases terr <;> simp [NeutronProvider.ListNetworks, ht, he]
  · intro networkID resp terr ht he
    cases terr <;> simp [NeutronProvider.ListSubnets, ht, he]
  · intro podName ns infra network runtime resp terr ht he
    cases terr <;> simp [NeutronProvider.PodStatus, ht, he]

/-- Witness of C12 on the stub whose `ListFloatingIps` receives one floating IP next to
the in-band error `boom`: the floating IP is dropped and the nil slice returned. -/
theorem stub_error_response_gives_zero_result_witness :
    ∃ err, (inBandErrorProvider.ListFloatingIps "ext-net").out = Outcome.returned ([], err) :=
  (stub_error_response_gives_zero_result inBandErrorProvider).2.2.1 "ext-net"
    { Floatings := [{ Id := "fip1" }], Error := "boom" } none rfl (by decide)

/-- C13: when the transport call of a stub method succeeds and the response's `Error` is
empty, the method returns a nil error and, for the result-bearing methods, exactly the
result field of the response: `FloatingIp`, `Floatingip`, `Floatings`, `Network` (for
both lookups), `Networks`, `Subnets`, `Ip`. The five methods that test their identifiers
make the transport call only for non-empty identifiers. -/
theorem stub_success_returns_result (r : NeutronProvider) :
    (∀ tenantId resp,
      r.floatingIPClient.CreateFloatingIp { TenantID := tenantId } = (some resp, none) →
      resp.Error = "" →
      (r.CreateFloatingIp tenantId).out = Outcome.returned (resp.FloatingIp, none)) ∧
    (∀ protId floatingipId resp, protId ≠ "" → floatingipId ≠ "" →
      r.floatingIPClient.BindFloatingIp { PortId := protId, FloatingipId := floatingipId }
        = (some resp, none) →
      resp.Error = "" →
      (r.BindFloatingIp protId floatingipId).out = Outcome.returned none) ∧
    (∀ portName tenantID resp,
      r.floatingIPClient.BindPortToExternal { PortName := portName, TenantID := tenantID }
        = (some resp, none) →
      resp.Error = "" →
      (r.BindPortToExternal portName tenantID).out
        = Outcome.returned (resp.Floatingip, none)) ∧
    (∀ portName resp,
      r.floatingIPClient.UnbindPortFromExternal { PortName := portName }
        = (some resp, none) →
      resp.Error = "" →
      (r.UnbindPortFromExternal portName).out = Outcome.returned none) ∧
    (∀ floatingipId resp, floatingipId ≠ "" →
      r.floatingIPClient.DelFloatingIp { FloatingipId := floatingipId }
        = (some resp, none) →
      resp.Error = "" →
      (r.DelFloatingIp floatingipId).out = Outcome.returned none) ∧
    (∀ floatingNetworkID resp,
      r.floatingIPClient.ListFloatingIps { FloatingNetworkID := floatingNetworkID }
        = (some resp, none) →
      resp.Error = "" →
      (r.ListFloatingIps floatingNetworkID).out
        = Outcome.returned (resp.Floatings, none)) ∧
    (∀ networkName resp, networkName ≠ "" →
      r.networkClient.GetNetwork { Name := networkName } = (some resp, none) →
      resp.Error = "" →
      (r.GetNetwork networkName).out = Outcome.returned (resp.Network, none)) ∧
    (∀ networkID resp, networkID ≠ "" →
      r.networkClient.GetNetwork { Id := networkID } = (some resp, none) →
      resp.Error = "" →
      (r.GetNetworkByID networkID).out = Outcome.returned (resp.Network, none)) ∧
    (∀ network resp,
      r.networkClient.CreateNetwork { Network := network } = (some resp, none) →
      resp.Error = "" →
      (r.CreateNetwork network).out = Outcome.returned none) ∧
    (∀ network resp,
      r.networkClient.UpdateNetwork { Network := network } = (some resp, none) →
      resp.Error = "" →
      (r.UpdateNetwork network).out = Outcome.returned none) ∧
    (∀ networkID resp, networkID ≠ "" →
      r.networkClient.DeleteNetwork { NetworkID := networkID } = (some resp, none) →
      resp.Error = "" →
      (r.DeleteNetwork networkID).out = Outcome.returned none) ∧
    (∀ tenantID resp,
      r.networkClient.ListNetworks { TenantID := tenantID } = (some resp, none) →
      resp.Error = "" →
      (r.ListNetworks tenantID).out = Outcome.returned (resp.Networks, none)) ∧
    (∀ networkID resp,
      r.subnetClient.ListSubnets { NetworkID := networkID } = (some resp, none) →
      resp.Error = "" →
      (r.ListSubnets networkID).out = Outcome.returned (resp.Subnets, none)) ∧
    (∀ subnet resp,
      r.subnetClient.CreateSubnet { Subnet := subnet } = (some resp, none) →
      resp.Error = "" →
      (r.CreateSubnet subnet).out = Outcome.returned none) ∧
    (∀ subnetID networkID resp,
      r.subnetClient.DeleteSubnet { SubnetID := subnetID, NetworkID := networkID }
        = (some resp, none) →
      resp.Error = "" →
      (r.DeleteSubnet subnetID networkID).out = Outcome.returned none) ∧
    (∀ subnet resp,
      r.subnetClient.UpdateSubnet { Subnet := subnet } = (some resp, none) →
      resp.Error = "" →
      (r.UpdateSubnet subnet).out = Outcome.returned none) ∧
    (∀ podName ns infra network runtime subnetID resp,
      r.podClient.SetupPod {
          PodName := podName, Namespace := ns, PodInfraContainerID := infra
          ContainerRuntime := runtime, Network := network, SubnetID := subnetID }
        = (some resp, none) →
      resp.Error = "" →
      (r.SetupPod podName ns infra network runtime subnetID).out = Outcome.returned none) ∧
    (∀ podName ns infra network runtime resp,
      r.podClient.TeardownPod {
          PodName := podName, Namespace := ns, PodInfraContainerID := infra
          ContainerRuntime := runtime, Network := network }
        = (some resp, none) →
      resp.Error = "" →
      (r.TeardownPod podName ns infra network runtime).out = Outcome.returned none) ∧
    (∀ podName ns infra network runtime resp,
      r.podClient.PodStatus {
          PodName := podName, Namespace := ns, PodInfraContainerID := infra
          ContainerRuntime := runtime, Network := network }
        = (some resp, none) →
      resp.Error = "" →
      (r.PodStatus podName ns infra network runtime).out
        = Outcome.returned (resp.Ip, none)) := by
  refine ⟨?_, ?_, ?_, ?_, ?_, ?_, ?_, ?_, ?_, ?_, ?_, ?_, ?_, ?_, ?_, ?_, ?_, ?_, ?_⟩
  · intro tenantId resp ht he
    simp [NeutronProvider.CreateFloatingIp, ht, he]
  · intro protId floatingipId resp hp hf ht he
    simp [NeutronProvider.BindFloatingIp, hp, hf, ht, he]
  · intro portName tenantID resp ht he
    simp [NeutronProvider.BindPortToExternal, ht, he]
  · intro portName resp ht he
    simp [NeutronProvider.UnbindPortFromExternal, ht, he]
  · intro floatingipId resp hid ht he
    simp [NeutronProvider.DelFloatingIp, hid, ht, he]
  · intro floatingNetworkID resp ht he
    simp [NeutronProvider.ListFloatingIps, ht, he]
  · intro networkName resp hid ht he
    simp [NeutronProvider.GetNetwork, hid, ht, he]
  · intro networkID resp hid ht he
    simp [NeutronProvider.GetNetworkByID, hid, ht, he]
  · intro network resp ht he
    simp [NeutronProvider.CreateNetwork, ht, he]
  · intro network resp ht he
    simp [NeutronProvider.UpdateNetwork, ht, he]
  · intro networkID resp hid ht he
    simp [NeutronProvider.DeleteNetwork, hid, ht, he]
  · intro tenantID resp ht he
    simp [NeutronProvider.ListNetworks, ht, he]
  · intro networkID resp ht he
    simp [NeutronProvider.ListSubnets, ht, he]
  · intro subnet resp ht he
    simp [NeutronProvider.CreateSubnet, ht, he]
  · intro subnetID networkID resp ht he
    simp [NeutronProvider.DeleteSubnet, ht, he]
  · intro subnet resp ht he
    simp [NeutronProvider.UpdateSubnet, ht, he]
  · intro podName ns infra network runtime subnetID resp ht he
    simp [NeutronProvider.SetupPod, ht, he]
  · intro podName ns infra network runtime resp ht he
    simp [NeutronProvider.TeardownPod, ht, he]
  · intro podName ns infra network runtime resp ht he
    simp [NeutronProvider.PodStatus, ht, he]

/-- Witness of C13 on the sample stub: the lookup of the network `blue` returns the
network of the response and a nil error. -/
theorem stub_success_returns_result_witness :
    (sampleProvider.GetNetwork "blue").out
      = Outcome.returned (some { Uid := "", Name := "blue" }, none) :=
  (stub_success_returns_result sampleProvider).2.2.2.2.2.2.1 "blue"
    { Network := some { Uid := "", Name := "blue" } } (by decide) rfl rfl

/-- The stub over a server that runs a dispatcher: when the driver method behind an
operation fails with an error whose message is not empty, the stub returns
`errors.New` of that message next to a zero result. The operations are the ones the
dispatcher serves, with a resource argument that is not nil and, for the three methods
that test it, a non-empty identifier. -/
theorem stub_over_dispatcher_driver_error (h : KubeHandler) :
    (∀ networkName (e : GoError),
      networkName ≠ "" →
      (h.driver.GetNetwork networkName).2 = some e →
      e.Error ≠ "" →
      (h.stub.GetNetwork networkName).out
        = Outcome.returned (none, some (errors.New e.Error))) ∧
    (∀ networkID (e : GoError),
      networkID ≠ "" →
      (h.driver.GetNetworkByID networkID).2 = some e →
      e.Error ≠ "" →
      (h.stub.GetNetworkByID networkID).out
        = Outcome.returned (none, some (errors.New e.Error))) ∧
    (∀ (network : Network) (e : GoError),
      h.driver.CreateNetwork
          (some { network with TenantID := h.driver.ToTenantID network.TenantID }) = some e →
      e.Error ≠ "" →
      (h.stub.CreateNetwork (some network)).out
        = Outcome.returned (some (errors.New e.Error))) ∧
    (∀ (network : Network) (e : GoError),
      h.driver.UpdateNetwork
          (some { network with TenantID := h.driver.ToTenantID network.TenantID }) = some e →
      e.Error ≠ "" →
      (h.stub.UpdateNetwork (some network)).out
        = Outcome.returned (some (errors.New e.Error))) ∧
    (∀ networkID (e : GoError),
      networkID ≠ "" →
      h.driver.DeleteNetwork networkID = some e →
      e.Error ≠ "" →
      (h.stub.DeleteNetwork networkID).out
        = Outcome.returned (some (errors.New e.Error))) ∧
    (∀ tenantID (e : GoError),
      (h.driver.ListNetworks tenantID).2 = some e →
      e.Error ≠ "" →
      (h.stub.ListNetworks tenantID).out
        = Outcome.returned ([], some (errors.New e.Error))) ∧
    (∀ networkID (e : GoError),
      (h.driver.ListSubnets networkID).2 = some e →
      e.Error ≠ "" →
      (h.stub.ListSubnets networkID).out
        = Outcome.returned ([], some (errors.New e.Error))) ∧
    (∀ (subnet : Subnet) (e : GoError),
      h.driver.CreateSubnet
          (some { subnet with Tenantid := h.driver.ToTenantID subnet.Tenantid }) = some e →
      e.Error ≠ "" →
      (h.stub.CreateSubnet (some subnet)).out
        = Outcome.returned (some (errors.New e.Error))) ∧
    (∀ subnetID networkID (e : GoError),
      h.driver.DeleteSubnet subnetID networkID = some e →
      e.Error ≠ "" →
      (h.stub.DeleteSubnet subnetID networkID).out
        = Outcome.returned (some (errors.New e.Error))) ∧
    (∀ (subnet : Subnet) (e : GoError),
      h.driver.UpdateSubnet (some subnet) = some e →
      e.Error ≠ "" →
      (h.stub.UpdateSubnet (some subnet)).out
        = Outcome.returned (some (errors.New e.Error))) ∧
    (∀ podName ns infra network runtime subnetID (e : GoError),
      h.driver.SetupPod podName ns infra network runtime subnetID = some e →
      e.Error ≠ "" →
      (h.stub.SetupPod podName ns infra network runtime subnetID).out
        = Outcome.returned (some (errors.New e.Error))) ∧
    (∀ podName ns infra network runtime (e : GoError),
      h.driver.TeardownPod podName ns infra network runtime = some e →
      e.Error ≠ "" →
      (h.stub.TeardownPod podName ns infra network runtime).out
        = Outcome.returned (some (errors.New e.Error))) ∧
    (∀ podName ns infra network runtime (e : GoError),
      (h.driver.PodStatus podName ns infra network runtime).2 = some e →
      e.Error ≠ "" →
      (h.stub.PodStatus podName ns infra network runtime).out
        = Outcome.returned ("", some (errors.New e.Error))) := by
  refine ⟨?_, ?_, ?_, ?_, ?_, ?_, ?_, ?_, ?_, ?_, ?_, ?_, ?_⟩
  · intro networkName e hp0 hfail hmsg
    simp [NeutronProvider.GetNetwork, KubeHandler.stub, KubeHandler.serve,
      types.NewNetworksClient, roundTrip,
      KubeHandler.GetNetwork, readThrough, hp0, hfail, hmsg]
  · intro networkID e hp0 hfail hmsg
    simp [NeutronProvider.GetNetworkByID, KubeHandler.stub, KubeHandler.serve,
      types.NewNetworksClient, roundTrip,
      KubeHandler.GetNetwork, readThrough, hp0, hfail, hmsg]
  · intro network e hfail hmsg
    simp [NeutronProvider.CreateNetwork, KubeHandler.stub, KubeHandler.serve,
      types.NewNetworksClient, roundTrip,
      KubeHandler.CreateNetwork, readThrough, hfail, hmsg]
  · intro network e hfail hmsg
    simp [NeutronProvider.UpdateNetwork, KubeHandler.stub, KubeHandler.serve,
      types.NewNetworksClient, roundTrip,
      KubeHandler.UpdateNetwork, readThrough, hfail, hmsg]
  · intro networkID e hp0 hfail hmsg
    simp [NeutronProvider.DeleteNetwork, KubeHandler.stub, KubeHandler.serve,
      types.NewNetworksClient, roundTrip,
      KubeHandler.DeleteNetwork, readThrough, hp0, hfail, hmsg]
  · intro tenantID e hfail hmsg
    simp [NeutronProvider.ListNetworks, KubeHandler.stub, KubeHandler.serve,
      types.NewNetworksClient, roundTrip,
      KubeHandler.ListNetworks, readThrough, hfail, hmsg]
  · intro networkID e hfail hmsg
    simp [NeutronProvider.ListSubnets, KubeHandler.stub, KubeHandler.serve,
      types.NewSubnetsClient, roundTrip,
      KubeHandler.ListSubnets, readThrough, hfail, hmsg]
  · intro subnet e hfail hmsg
    simp [NeutronProvider.CreateSubnet, KubeHandler.stub, KubeHandler.serve,
      types.NewSubnetsClient, roundTrip,
      KubeHandler.CreateSubnet, readThrough, hfail, hmsg]
  · intro subnetID networkID e hfail hmsg
    simp [NeutronProvider.DeleteSubnet, KubeHandler.stub, KubeHandler.serve,
      types.NewSubnetsClient, roundTrip,
      KubeHandler.DeleteSubnet, readThrough, hfail, hmsg]
  · intro subnet e hfail hmsg
    simp [NeutronProvider.UpdateSubnet, KubeHandler.stub, KubeHandler.serve,
      types.NewSubnetsClient, roundTrip,
      KubeHandler.UpdateSubnet, readThrough, hfail, hmsg]
  · intro podName ns infra network runtime subnetID e hfail hmsg
    simp [NeutronProvider.SetupPod, KubeHandler.stub, KubeHandler.serve,
      types.NewPodsClient, roundTrip,
      KubeHandler.SetupPod, readThrough, hfail, hmsg]
  · intro podName ns infra network runtime e hfail hmsg
    simp [NeutronProvider.TeardownPod, KubeHandler.stub, KubeHandler.serve,
      types.NewPodsClient, roundTrip,
      KubeHandler.TeardownPod, readThrough, hfail, hmsg]
  · intro podName ns infra network runtime e hfail hmsg
    simp [NeutronProvider.PodStatus, KubeHandler.stub, KubeHandler.serve,
      types.NewPodsClient, roundTrip,
      KubeHandler.PodStatus, readThrough, hfail, hmsg]

/-- C14, refuted: the driver's `DeleteNetwork` returns a non-nil error whose message is
the empty string; the stub's `DeleteNetwork` of `n1` reaches it through the dispatcher
and returns a nil error. And on the failing driver, whose `UpdateSubnet` fails with
`boom` also for a nil subnet, the transport hands the stub's `UpdateSubnet` of a nil
subnet the response with `Error: boom`, and the stub returns no error: it panics. -/
theorem empty_message_error_is_lost :
    silentFailureDriver.DeleteNetwork "n1" = some (errors.New "") ∧
    ({ driver := silentFailureDriver } : KubeHandler).driverCalls
        ((({ driver := silentFailureDriver } : KubeHandler).stub).DeleteNetwork "n1")
      = [DriverCall.DeleteNetwork "n1"] ∧
    ((({ driver := silentFailureDriver } : KubeHandler).stub).DeleteNetwork "n1").out
      = Outcome.returned none ∧
    failingDriver.UpdateSubnet none = some (errors.New "boom") ∧
    (({ driver := failingDriver } : KubeHandler).serve).subnets.UpdateSubnet { Subnet := none }
      = (some { Error := "boom" }, none) ∧
    ((({ driver := failingDriver } : KubeHandler).stub).UpdateSubnet none).out
      = Outcome.panicked :=
  ⟨rfl, rfl, by decide, rfl, rfl, rfl⟩

/-- C14, amended: for every operation of the stub over a server that runs the
dispatcher, called with a resource argument that is not nil, when the driver method
behind it returns an error whose message is not empty, the stub returns a non-nil
error. The resource argument is the network of `CreateNetwork` and `UpdateNetwork` and
the subnet of `CreateSubnet` and `UpdateSubnet`; every other argument is arbitrary (an
empty identifier makes the stub return its own error before any remote call). -/
theorem driver_error_reaches_caller (h : KubeHandler) :
    (∀ networkName (e : GoError),
      (h.driver.GetNetwork networkName).2 = some e →
      e.Error ≠ "" →
      ∃ err : GoError, (h.stub.GetNetwork networkName).out
        = Outcome.returned (none, some err)) ∧
    (∀ networkID (e : GoError),
      (h.driver.GetNetworkByID networkID).2 = some e →
      e.Error ≠ "" →
      ∃ err : GoError, (h.stub.GetNetworkByID networkID).out
        = Outcome.returned (none, some err)) ∧
    (∀ (network : Network) (e : GoError),
      h.driver.CreateNetwork
          (some { network with TenantID := h.driver.ToTenantID network.TenantID }) = some e →
      e.Error ≠ "" →
      ∃ err : GoError, (h.stub.CreateNetwork (some network)).out
        = Outcome.returned (some err)) ∧
    (∀ (network : Network) (e : GoError),
      h.driver.UpdateNetwork
          (some { network with TenantID := h.driver.ToTenantID network.TenantID }) = some e →
      e.Error ≠ "" →
      ∃ err : GoError, (h.stub.UpdateNetwork (some network)).out
        = Outcome.returned (some err)) ∧
    (∀ networkID (e : GoError),
      h.driver.DeleteNetwork networkID = some e →
      e.Error ≠ "" →
      ∃ err : GoError, (h.stub.DeleteNetwork networkID).out
        = Outcome.returned (some err)) ∧
    (∀ tenantID (e : GoError),
      (h.driver.ListNetworks tenantID).2 = some e →
      e.Error ≠ "" →
      ∃ err : GoError, (h.stub.ListNetworks tenantID).out
        = Outcome.returned ([], some err)) ∧
    (∀ networkID (e : GoError),
      (h.driver.ListSubnets networkID).2 = some e →
      e.Error ≠ "" →
      ∃ err : GoError, (h.stub.ListSubnets networkID).out
        = Outcome.returned ([], some err)) ∧
    (∀ (subnet : Subnet) (e : GoError),
      h.driver.CreateSubnet
          (some { subnet with Tenantid := h.driver.ToTenantID subnet.Tenantid }) = some e →
      e.Error ≠ "" →
      ∃ err : GoError, (h.stub.CreateSubnet (some subnet)).out
        = Outcome.returned (some err)) ∧
    (∀ subnetID networkID (e : GoError),
      h.driver.DeleteSubnet subnetID networkID = some e →
      e.Error ≠ "" →
      ∃ err : GoError, (h.stub.DeleteSubnet subnetID networkID).out
        = Outcome.returned (some err)) ∧
    (∀ (subnet : Subnet) (e : GoError),
      h.driver.UpdateSubnet (some subnet) = some e →
      e.Error ≠ "" →
      ∃ err : GoError, (h.stub.UpdateSubnet (some subnet)).out
        = Outcome.returned (some err)) ∧
    (∀ podName ns infra network runtime subnetID (e : GoError),
      h.driver.SetupPod podName ns infra network runtime subnetID = some e →
      e.Error ≠ "" →
      ∃ err : GoError, (h.stub.SetupPod podName ns infra network runtime subnetID).out
        = Outcome.returned (some err)) ∧
    (∀ podName ns infra network runtime (e : GoError),
      h.driver.TeardownPod podName ns infra network runtime = some e →
      e.Error ≠ "" →
      ∃ err : GoError, (h.stub.TeardownPod podName ns infra network runtime).out
        = Outcome.returned (some err)) ∧
    (∀ podName ns infra network runtime (e : GoError),
      (h.driver.PodStatus podName ns infra network runtime).2 = some e →
      e.Error ≠ "" →
      ∃ err : GoError, (h.stub.PodStatus podName ns infra network runtime).out
        = Outcome.returned ("", some err)) := by
  refine ⟨?_, ?_, ?_, ?_, ?_, ?_, ?_, ?_, ?_, ?_, ?_, ?_, ?_⟩
  · intro networkName e hfail hmsg
    by_cases hp0 : networkName = ""
    · exact ⟨errors.New "networkName is null", by simp [NeutronProvider.GetNetwork, hp0]⟩
    · exact ⟨_, (stub_over_dispatcher_driver_error h).1
        networkName e hp0 hfail hmsg⟩
  · intro networkID e hfail hmsg
    by_cases hp0 : networkID = ""
    · exact ⟨errors.New "networkID is null", by simp [NeutronProvider.GetNetworkByID, hp0]⟩
    · exact ⟨_, (stub_over_dispatcher_driver_error h).2.1
        networkID e hp0 hfail hmsg⟩
  · intro network e hfail hmsg
    exact ⟨_, (stub_over_dispatcher_driver_error h).2.2.1
      network e hfail hmsg⟩
  · intro network e hfail hmsg
    exact ⟨_, (stub_over_dispatcher_driver_error h).2.2.2.1
      network e hfail hmsg⟩
  · intro networkID e hfail hmsg
    by_cases hp0 : networkID = ""
    · exact ⟨errors.New "networkName is null", by simp [NeutronProvider.DeleteNetwork, hp0]⟩
    · exact ⟨_, (stub_over_dispatcher_driver_error h).2.2.2.2.1
        networkID e hp0 hfail hmsg⟩
  · intro tenantID e hfail hmsg
    exact ⟨_, (stub_over_dispatcher_driver_error h).2.2.2.2.2.1
      tenantID e hfail hmsg⟩
  · intro networkID e hfail hmsg
    exact ⟨_, (stub_over_dispatcher_driver_error h).2.2.2.2.2.2.1
      networkID e hfail hmsg⟩
  · intro subnet e hfail hmsg
    exact ⟨_, (stub_over_dispatcher_driver_error h).2.2.2.2.2.2.2.1
      subnet e hfail hmsg⟩
  · intro subnetID networkID e hfail hmsg
    exact ⟨_, (stub_over_dispatcher_driver_error h).2.2.2.2.2.2.2.2.1
      subnetID networkID e hfail hmsg⟩
  · intro subnet e hfail hmsg
    exact ⟨_, (stub_over_dispatcher_driver_error h).2.2.2.2.2.2.2.2.2.1
      subnet e hfail hmsg⟩
  · intro podName ns infra network runtime subnetID e hfail hmsg
    exact ⟨_, (stub_over_dispatcher_driver_error h).2.2.2.2.2.2.2.2.2.2.1
      podName ns infra network runtime subnetID e hfail hmsg⟩
  · intro podName ns infra network runtime e hfail hmsg
    exact ⟨_, (stub_over_dispatcher_driver_error h).2.2.2.2.2.2.2.2.2.2.2.1
      podName ns infra network runtime e hfail hmsg⟩
  · intro podName ns infra network runtime e hfail hmsg
    exact ⟨_, (stub_over_dispatcher_driver_error h).2.2.2.2.2.2.2.2.2.2.2.2
      podName ns infra network runtime e hfail hmsg⟩

/-- Witness of C14 as amended, on the failing driver: the lookup of the network `blue`
fails in the driver with `boom` and the stub returns a non-nil error. -/
theorem driver_error_reaches_caller_witness :
    ∃ err : GoError,
      ((({ driver := failingDriver } : KubeHandler).stub).GetNetwork "blue").out
        = Outcome.returned (none, some err) :=
  (driver_error_reaches_caller { driver := failingDriver }).1
    "blue" (errors.New "boom") rfl (by decide)

/-- C15, refuted: a `GetNetwork` request with neither `Id` nor `Name` makes no driver
call and is answered with an empty `Error` (and a nil `Network`). -/
theorem GetNetwork_without_identifier_empty_error :
    (({ driver := sampleDriver } : KubeHandler).GetNetwork { Id := "", Name := "" }).calls = [] ∧
    (({ driver := sampleDriver } : KubeHandler).GetNetwork { Id := "", Name := "" }).out
      = Outcome.returned (({ Network := none, Error := "" } : GetNetworkResponse), none) :=
  ⟨rfl, rfl⟩

/-- C15, amended: for every `GetNetwork` request in which both `Id` and `Name` are empty
the dispatcher calls no driver method and returns the zero response, with an empty
`Error` and a nil `Network`, next to a nil error. -/
theorem GetNetwork_without_identifier (h : KubeHandler) (req : GetNetworkRequest)
    (hid : req.Id = "") (hname : req.Name = "") :
    (h.GetNetwork req).calls = [] ∧
    (h.GetNetwork req).out
      = Outcome.returned (({ Network := none, Error := "" } : GetNetworkResponse), none) := by
  simp [KubeHandler.GetNetwork, hid, hname]

/-- Witness of C15 as amended, on the failing driver: no lookup is made, so its failure
does not show. -/
theorem GetNetwork_without_identifier_witness :
    (({ driver := failingDriver } : KubeHandler).GetNetwork { Id := "", Name := "" }).calls = [] ∧
    (({ driver := failingDriver } : KubeHandler).GetNetwork { Id := "", Name := "" }).out
      = Outcome.returned (({ Network := none, Error := "" } : GetNetworkResponse), none) :=
  GetNetwork_without_identifier { driver := failingDriver } { Id := "", Name := "" } rfl rfl

/-- C16: the dispatcher's `UpdateSubnet` makes one driver call, `UpdateSubnet` with the
request's `Subnet` as it came, so with its `Gateway` unmodified; the subnet handed on
depends on the request alone, so equal requests hand equal subnets to the driver, on
every call and whatever the driver is. The stub puts its argument into the request
unmodified, and through the stub and the dispatcher the driver receives the caller's
subnet. -/
theorem UpdateSubnet_passes_subnet_through :
    (∀ (h : KubeHandler) (req : UpdateSubnetRequest),
      (h.UpdateSubnet req).calls = [DriverCall.UpdateSubnet req.Subnet]) ∧
    (∀ (h : KubeHandler) (req : UpdateSubnetRequest) (subnet : Subnet),
      req.Subnet = some subnet →
      ∃ handed : Subnet,
        (h.UpdateSubnet req).calls = [DriverCall.UpdateSubnet (some handed)] ∧
        handed.Gateway = subnet.Gateway) ∧
    (∀ (h₁ h₂ : KubeHandler) (req₁ req₂ : UpdateSubnetRequest), req₁ = req₂ →
      (h₁.UpdateSubnet req₁).calls = (h₂.UpdateSubnet req₂).calls) ∧
    (∀ (r : NeutronProvider) (subnet : Option Subnet),
      (r.UpdateSubnet subnet).calls = [RpcCall.UpdateSubnet { Subnet := subnet }]) ∧
    (∀ (h : KubeHandler) (subnet : Option Subnet),
      h.driverCalls (h.stub.UpdateSubnet subnet) = [DriverCall.UpdateSubnet subnet]) := by
  refine ⟨fun h req => rfl, ?_, ?_, fun r subnet => rfl, fun h subnet => rfl⟩
  · intro h req subnet hreq
    exact ⟨subnet, by simp [KubeHandler.UpdateSubnet, hreq], rfl⟩
  · intro h₁ h₂ req₁ req₂ heq
    subst heq
    rfl

/-- Witness of C16: scenario 4 of the spec, an update of the subnet `s1` that carries
the gateway `192.168.6.1`, against a driver that accepts it and against one that
rejects it. -/
theorem UpdateSubnet_passes_subnet_through_witness :
    (∃ handed : Subnet,
      (({ driver := sampleDriver } : KubeHandler).UpdateSubnet
          { Subnet := some { Uid := "s1", Gateway := "192.168.6.1" } }).calls
        = [DriverCall.UpdateSubnet (some handed)] ∧
      handed.Gateway = "192.168.6.1") ∧
    (({ driver := sampleDriver } : KubeHandler).UpdateSubnet
        { Subnet := some { Uid := "s1", Gateway := "192.168.6.1" } }).calls
      = (({ driver := failingDriver } : KubeHandler).UpdateSubnet
        { Subnet := some { Uid := "s1", Gateway := "192.168.6.1" } }).calls :=
  ⟨UpdateSubnet_passes_subnet_through.2.1 { driver := sampleDriver }
      { Subnet := some { Uid := "s1", Gateway := "192.168.6.1" } }
      { Uid := "s1", Gateway := "192.168.6.1" } rfl,
    UpdateSubnet_passes_subnet_through.2.2.1 { driver := sampleDriver }
      { driver := failingDriver } _ _ rfl⟩

/-- C17: through the stub and the dispatcher, the driver's `SetupPod`, `TeardownPod` and
`PodStatus` are called once, with the caller's arguments in the caller's order (pod
name, namespace, infra-container id, network, container runtime and, for `SetupPod`,
subnet id), and what the stub returns is what the driver method answers on exactly
these arguments. -/
theorem pod_arguments_reach_driver (h : KubeHandler) (podName ns infra : String)
    (network : Option Network) (runtime subnetID : String) :
    (h.driverCalls (h.stub.SetupPod podName ns infra network runtime subnetID)
        = [DriverCall.SetupPod podName ns infra network runtime subnetID] ∧
      (h.stub.SetupPod podName ns infra network runtime subnetID).out
        = Outcome.returned
          (match h.driver.SetupPod podName ns infra network runtime subnetID with
            | some err => if err.Error ≠ "" then some (errors.New err.Error) else none
            | none => none)) ∧
    (h.driverCalls (h.stub.TeardownPod podName ns infra network runtime)
        = [DriverCall.TeardownPod podName ns infra network runtime] ∧
      (h.stub.TeardownPod podName ns infra network runtime).out
        = Outcome.returned
          (match h.driver.TeardownPod podName ns infra network runtime with
            | some err => if err.Error ≠ "" then some (errors.New err.Error) else none
            | none => none)) ∧
    (h.driverCalls (h.stub.PodStatus podName ns infra network runtime)
        = [DriverCall.PodStatus podName ns infra network runtime] ∧
      (h.stub.PodStatus podName ns infra network runtime).out
        = Outcome.returned
          (match (h.driver.PodStatus podName ns infra network runtime).2 with
            | some err => if err.Error ≠ "" then ("", some (errors.New err.Error)) else ("", none)
            | none => ((h.driver.PodStatus podName ns infra network runtime).1, none))) := by
  refine ⟨⟨rfl, ?_⟩, ⟨rfl, ?_⟩, ⟨rfl, ?_⟩⟩
  · simp only [NeutronProvider.SetupPod, KubeHandler.stub, KubeHandler.serve,
      types.NewPodsClient, roundTrip, KubeHandler.SetupPod]
    cases hd : h.driver.SetupPod podName ns infra network runtime subnetID with
    | none => simp
    | some err => by_cases hm : err.Error = "" <;> simp [hm]
  · simp only [NeutronProvider.TeardownPod, KubeHandler.stub, KubeHandler.serve,
      types.NewPodsClient, roundTrip, KubeHandler.TeardownPod]
    cases hd : h.driver.TeardownPod podName ns infra network runtime with
    | none => simp
    | some err => by_cases hm : err.Error = "" <;> simp [hm]
  · simp only [NeutronProvider.PodStatus, KubeHandler.stub, KubeHandler.serve,
      types.NewPodsClient, roundTrip, KubeHandler.PodStatus]
    cases hd : (h.driver.PodStatus podName ns infra network runtime).2 with
    | none => simp
    | some err => by_cases hm : err.Error = "" <;> simp [hm]

/-- C18: no retry. Every dispatcher handler calls its driver resource method at most
once per request, whatever the driver answers: among its driver calls at most one is not
the tenant normalization `ToTenantID`. Every stub method, and `InitNeutronProviders`,
makes at most one remote call, whatever the transport and the backend answer. -/
theorem no_call_is_repeated :
    (∀ h : KubeHandler,
      (∀ req, ((h.Active req).calls.filter (fun c => !c.isToTenantID)).length ≤ 1) ∧
      (∀ req, ((h.CheckTenantID req).calls.filter (fun c => !c.isToTenantID)).length ≤ 1) ∧
      (∀ req, ((h.GetNetwork req).calls.filter (fun c => !c.isToTenantID)).length ≤ 1) ∧
      (∀ req, ((h.CreateNetwork req).calls.filter (fun c => !c.isToTenantID)).length ≤ 1) ∧
      (∀ req, ((h.UpdateNetwork req).calls.filter (fun c => !c.isToTenantID)).length ≤ 1) ∧
      (∀ req, ((h.DeleteNetwork req).calls.filter (fun c => !c.isToTenantID)).length ≤ 1) ∧
      (∀ req, ((h.ListNetworks req).calls.filter (fun c => !c.isToTenantID)).length ≤ 1) ∧
      (∀ req, ((h.ListSubnets req).calls.filter (fun c => !c.isToTenantID)).length ≤ 1) ∧
      (∀ req, ((h.CreateSubnet req).calls.filter (fun c => !c.isToTenantID)).length ≤ 1) ∧
      (∀ req, ((h.GetSubnet req).calls.filter (fun c => !c.isToTenantID)).length ≤ 1) ∧
      (∀ req, ((h.DeleteSubnet req).calls.filter (fun c => !c.isToTenantID)).length ≤ 1) ∧
      (∀ req, ((h.UpdateSubnet req).calls.filter (fun c => !c.isToTenantID)).length ≤ 1) ∧
      (∀ req, ((h.ConnectSubnets req).calls.filter (fun c => !c.isToTenantID)).length ≤ 1) ∧
      (∀ req, ((h.GetLoadBalancer req).calls.filter (fun c => !c.isToTenantID)).length ≤ 1) ∧
      (∀ req, ((h.CreateLoadBalancer req).calls.filter (fun c => !c.isToTenantID)).length ≤ 1) ∧
      (∀ req, ((h.UpdateLoadBalancer req).calls.filter (fun c => !c.isToTenantID)).length ≤ 1) ∧
      (∀ req, ((h.DeleteLoadBalancer req).calls.filter (fun c => !c.isToTenantID)).length ≤ 1) ∧
      (∀ req, ((h.SetupPod req).calls.filter (fun c => !c.isToTenantID)).length ≤ 1) ∧
      (∀ req, ((h.TeardownPod req).calls.filter (fun c => !c.isToTenantID)).length ≤ 1) ∧
      (∀ req, ((h.PodStatus req).calls.filter (fun c => !c.isToTenantID)).length ≤ 1)) ∧
    (∀ r : NeutronProvider,
      (∀ tenantId, (r.CreateFloatingIp tenantId).calls.length ≤ 1) ∧
      (∀ protId floatingipId, (r.BindFloatingIp protId floatingipId).calls.length ≤ 1) ∧
      (∀ portName tenantID, (r.BindPortToExternal portName tenantID).calls.length ≤ 1) ∧
      (∀ portName, (r.UnbindPortFromExternal portName).calls.length ≤ 1) ∧
      (∀ floatingipId, (r.DelFloatingIp floatingipId).calls.length ≤ 1) ∧
      (∀ floatingNetworkID, (r.ListFloatingIps floatingNetworkID).calls.length ≤ 1) ∧
      (∀ networkName, (r.GetNetwork networkName).calls.length ≤ 1) ∧
      (∀ networkID, (r.GetNetworkByID networkID).calls.length ≤ 1) ∧
      (∀ network, (r.CreateNetwork network).calls.length ≤ 1) ∧
      (∀ network, (r.UpdateNetwork network).calls.length ≤ 1) ∧
      (∀ networkID, (r.DeleteNetwork networkID).calls.length ≤ 1) ∧
      (∀ tenantID, (r.ListNetworks tenantID).calls.length ≤ 1) ∧
      (∀ networkID, (r.ListSubnets networkID).calls.length ≤ 1) ∧
      (∀ subnet, (r.CreateSubnet subnet).calls.length ≤ 1) ∧
      (∀ subnetID networkID, (r.DeleteSubnet subnetID networkID).calls.length ≤ 1) ∧
      (∀ subnet, (r.UpdateSubnet subnet).calls.length ≤ 1) ∧
      (∀ podName ns infra network runtime subnetID,
        (r.SetupPod podName ns infra network runtime subnetID).calls.length ≤ 1) ∧
      (∀ podName ns infra network runtime,
        (r.TeardownPod podName ns infra network runtime).calls.length ≤ 1) ∧
      (∀ podName ns infra network runtime,
        (r.PodStatus podName ns infra network runtime).calls.length ≤ 1)) ∧
    (∀ dial remoteAddr, (InitNeutronProviders dial remoteAddr).calls.length ≤ 1) := by
  refine ⟨fun h => ⟨?_, ?_, ?_, ?_, ?_, ?_, ?_, ?_, ?_, ?_, ?_, ?_, ?_, ?_, ?_, ?_, ?_, ?_, ?_, ?_⟩,
    fun r => ⟨?_, ?_, ?_, ?_, ?_, ?_, ?_, ?_, ?_, ?_, ?_, ?_, ?_, ?_, ?_, ?_, ?_, ?_, ?_⟩, ?_⟩
  · intro req
    simp [KubeHandler.Active, DriverCall.isToTenantID]
  · intro req
    simp [KubeHandler.CheckTenantID, DriverCall.isToTenantID]
  · intro req
    by_cases hid : req.Id = "" <;> by_cases hname : req.Name = "" <;>
      simp [KubeHandler.GetNetwork, DriverCall.isToTenantID, hid, hname]
  · intro req
    simp only [KubeHandler.CreateNetwork]
    split <;> simp [DriverCall.isToTenantID]
  · intro req
    simp only [KubeHandler.UpdateNetwork]
    split <;> simp [DriverCall.isToTenantID]
  · intro req
    simp [KubeHandler.DeleteNetwork, DriverCall.isToTenantID]
  · intro req
    simp [KubeHandler.ListNetworks, DriverCall.isToTenantID]
  · intro req
    simp [KubeHandler.ListSubnets, DriverCall.isToTenantID]
  · intro req
    simp only [KubeHandler.CreateSubnet]
    split <;> simp [DriverCall.isToTenantID]
  · intro req
    simp [KubeHandler.GetSubnet, DriverCall.isToTenantID]
  · intro req
    simp [KubeHandler.DeleteSubnet, DriverCall.isToTenantID]
  · intro req
    simp [KubeHandler.UpdateSubnet, DriverCall.isToTenantID]
  · intro req
    simp [KubeHandler.ConnectSubnets, DriverCall.isToTenantID]
  · intro req
    simp [KubeHandler.GetLoadBalancer, DriverCall.isToTenantID]
  · intro req
    simp only [KubeHandler.CreateLoadBalancer]
    split <;> simp [DriverCall.isToTenantID]
  · intro req
    simp [KubeHandler.UpdateLoadBalancer, DriverCall.isToTenantID]
  · intro req
    simp [KubeHandler.DeleteLoadBalancer, DriverCall.isToTenantID]
  · intro req
    simp [KubeHandler.SetupPod, DriverCall.isToTenantID]
  · intro req
    simp [KubeHandler.TeardownPod, DriverCall.isToTenantID]
  · intro req
    simp [KubeHandler.PodStatus, DriverCall.isToTenantID]
  · intro tenantId
    simp [NeutronProvider.CreateFloatingIp]
  · intro protId floatingipId
    simp only [NeutronProvider.BindFloatingIp]
    split <;> simp
  · intro portName tenantID
    simp [NeutronProvider.BindPortToExternal]
  · intro portName
    simp [NeutronProvider.UnbindPortFromExternal]
  · intro floatingipId
    simp only [NeutronProvider.DelFloatingIp]
    split <;> simp
  · intro floatingNetworkID
    simp [NeutronProvider.ListFloatingIps]
  · intro networkName
    simp only [NeutronProvider.GetNetwork]
    split <;> simp
  · intro networkID
    simp only [NeutronProvider.GetNetworkByID]
    split <;> simp
  · intro network
    simp [NeutronProvider.CreateNetwork]
  · intro network
    simp [NeutronProvider.UpdateNetwork]
  · intro networkID
    simp only [NeutronProvider.DeleteNetwork]
    split <;> simp
  · intro tenantID
    simp [NeutronProvider.ListNetworks]
  · intro networkID
    simp [NeutronProvider.ListSubnets]
  · intro subnet
    simp [NeutronProvider.CreateSubnet]
  · intro subnetID networkID
    simp [NeutronProvider.DeleteSubnet]
  · intro subnet
    simp [NeutronProvider.UpdateSubnet]
  · intro podName ns infra network runtime subnetID
    simp [NeutronProvider.SetupPod]
  · intro podName ns infra network runtime
    simp [NeutronProvider.TeardownPod]
  · intro podName ns infra network runtime
    simp [NeutronProvider.PodStatus]
  · intro dial remoteAddr
    simp only [InitNeutronProviders]
    split <;> simp

/-- C19: on a request that leaves its resource message out, `CreateNetwork`,
`UpdateNetwork`, `CreateSubnet` and `CreateLoadBalancer` fault: they return no response
at all, so no client-error response either. -/
theorem absent_resource_gets_no_response :
    (¬ ∃ resp err, (({ driver := sampleDriver } : KubeHandler).CreateNetwork
        { Network := none }).out = Outcome.returned (resp, err)) ∧
    (¬ ∃ resp err, (({ driver := sampleDriver } : KubeHandler).UpdateNetwork
        { Network := none }).out = Outcome.returned (resp, err)) ∧
    (¬ ∃ resp err, (({ driver := sampleDriver } : KubeHandler).CreateSubnet
        { Subnet := none }).out = Outcome.returned (resp, err)) ∧
    (¬ ∃ resp err, (({ driver := sampleDriver } : KubeHandler).CreateLoadBalancer
        { LoadBalancer := none }).out = Outcome.returned (resp, err)) := by
  refine ⟨?_, ?_, ?_, ?_⟩ <;>
    simp [KubeHandler.CreateNetwork, KubeHandler.UpdateNetwork, KubeHandler.CreateSubnet,
      KubeHandler.CreateLoadBalancer]

/-- Before the fault of C19 no driver method is called: for a `CreateNetwork`,
`UpdateNetwork`, `CreateSubnet` or `CreateLoadBalancer` request whose resource message
is absent the call list is empty, the panic coming before `ToTenantID`. -/
theorem absent_resource_reaches_no_driver_method (h : KubeHandler) :
    (∀ req : CreateNetworkRequest, req.Network = none → (h.CreateNetwork req).calls = []) ∧
    (∀ req : UpdateNetworkRequest, req.Network = none → (h.UpdateNetwork req).calls = []) ∧
    (∀ req : CreateSubnetRequest, req.Subnet = none → (h.CreateSubnet req).calls = []) ∧
    (∀ req : CreateLoadBalancerRequest, req.LoadBalancer = none →
      (h.CreateLoadBalancer req).calls = []) := by
  refine ⟨?_, ?_, ?_, ?_⟩
  · intro req hreq
    simp [KubeHandler.CreateNetwork, hreq]
  · intro req hreq
    simp [KubeHandler.UpdateNetwork, hreq]
  · intro req hreq
    simp [KubeHandler.CreateSubnet, hreq]
  · intro req hreq
    simp [KubeHandler.CreateLoadBalancer, hreq]

/-- The part of C20 that holds: for every operation of the stub over a server that runs
the dispatcher, when the driver method behind it fails with an error whose message `m`
is not empty, the stub returns an error whose message is exactly `m`, provided the
resource argument is not nil and, for the three methods that test it before the remote
call, the identifier is not empty, so that the driver is reached. -/
theorem error_message_round_trip (h : KubeHandler) :
    (∀ networkName (e : GoError),
      networkName ≠ "" →
      (h.driver.GetNetwork networkName).2 = some e →
      e.Error ≠ "" →
      ∃ err : GoError, (h.stub.GetNetwork networkName).out
        = Outcome.returned (none, some err) ∧ err.Error = e.Error) ∧
    (∀ networkID (e : GoError),
      networkID ≠ "" →
      (h.driver.GetNetworkByID networkID).2 = some e →
      e.Error ≠ "" →
      ∃ err : GoError, (h.stub.GetNetworkByID networkID).out
        = Outcome.returned (none, some err) ∧ err.Error = e.Error) ∧
    (∀ (network : Network) (e : GoError),
      h.driver.CreateNetwork
          (some { network with TenantID := h.driver.ToTenantID network.TenantID }) = some e →
      e.Error ≠ "" →
      ∃ err : GoError, (h.stub.CreateNetwork (some network)).out
        = Outcome.returned (some err) ∧ err.Error = e.Error) ∧
    (∀ (network : Network) (e : GoError),
      h.driver.UpdateNetwork
          (some { network with TenantID := h.driver.ToTenantID network.TenantID }) = some e →
      e.Error ≠ "" →
      ∃ err : GoError, (h.stub.UpdateNetwork (some network)).out
        = Outcome.returned (some err) ∧ err.Error = e.Error) ∧
    (∀ networkID (e : GoError),
      networkID ≠ "" →
      h.driver.DeleteNetwork networkID = some e →
      e.Error ≠ "" →
      ∃ err : GoError, (h.stub.DeleteNetwork networkID).out
        = Outcome.returned (some err) ∧ err.Error = e.Error) ∧
    (∀ tenantID (e : GoError),
      (h.driver.ListNetworks tenantID).2 = some e →
      e.Error ≠ "" →
      ∃ err : GoError, (h.stub.ListNetworks tenantID).out
        = Outcome.returned ([], some err) ∧ err.Error = e.Error) ∧
    (∀ networkID (e : GoError),
      (h.driver.ListSubnets networkID).2 = some e →
      e.Error ≠ "" →
      ∃ err : GoError, (h.stub.ListSubnets networkID).out
        = Outcome.returned ([], some err) ∧ err.Error = e.Error) ∧
    (∀ (subnet : Subnet) (e : GoError),
      h.driver.CreateSubnet
          (some { subnet with Tenantid := h.driver.ToTenantID subnet.Tenantid }) = some e →
      e.Error ≠ "" →
      ∃ err : GoError, (h.stub.CreateSubnet (some subnet)).out
        = Outcome.returned (some err) ∧ err.Error = e.Error) ∧
    (∀ subnetID networkID (e : GoError),
      h.driver.DeleteSubnet subnetID networkID = some e →
      e.Error ≠ "" →
      ∃ err : GoError, (h.stub.DeleteSubnet subnetID networkID).out
        = Outcome.returned (some err) ∧ err.Error = e.Error) ∧
    (∀ (subnet : Subnet) (e : GoError),
      h.driver.UpdateSubnet (some subnet) = some e →
      e.Error ≠ "" →
      ∃ err : GoError, (h.stub.UpdateSubnet (some subnet)).out
        = Outcome.returned (some err) ∧ err.Error = e.Error) ∧
    (∀ podName ns infra network runtime subnetID (e : GoError),
      h.driver.SetupPod podName ns infra network runtime subnetID = some e →
      e.Error ≠ "" →
      ∃ err : GoError, (h.stub.SetupPod podName ns infra network runtime subnetID).out
        = Outcome.returned (some err) ∧ err.Error = e.Error) ∧
    (∀ podName ns infra network runtime (e : GoError),
      h.driver.TeardownPod podName ns infra network runtime = some e →
      e.Error ≠ "" →
      ∃ err : GoError, (h.stub.TeardownPod podName ns infra network runtime).out
        = Outcome.returned (some err) ∧ err.Error = e.Error) ∧
    (∀ podName ns infra network runtime (e : GoError),
      (h.driver.PodStatus podName ns infra network runtime).2 = some e →
      e.Error ≠ "" →
      ∃ err : GoError, (h.stub.PodStatus podName ns infra network runtime).out
        = Outcome.returned ("", some err) ∧ err.Error = e.Error) := by
  refine ⟨?_, ?_, ?_, ?_, ?_, ?_, ?_, ?_, ?_, ?_, ?_, ?_, ?_⟩
  · intro networkName e hp0 hfail hmsg
    exact ⟨_, (stub_over_dispatcher_driver_error h).1
      networkName e hp0 hfail hmsg, rfl⟩
  · intro networkID e hp0 hfail hmsg
    exact ⟨_, (stub_over_dispatcher_driver_error h).2.1
      networkID e hp0 hfail hmsg, rfl⟩
  · intro network e hfail hmsg
    exact ⟨_, (stub_over_dispatcher_driver_error h).2.2.1
      network e hfail hmsg, rfl⟩
  · intro network e hfail hmsg
    exact ⟨_, (stub_over_dispatcher_driver_error h).2.2.2.1
      network e hfail hmsg, rfl⟩
  · intro networkID e hp0 hfail hmsg
    exact ⟨_, (stub_over_dispatcher_driver_error h).2.2.2.2.1
      networkID e hp0 hfail hmsg, rfl⟩
  · intro tenantID e hfail hmsg
    exact ⟨_, (stub_over_dispatcher_driver_error h).2.2.2.2.2.1
      tenantID e hfail hmsg, rfl⟩
  · intro networkID e hfail hmsg
    exact ⟨_, (stub_over_dispatcher_driver_error h).2.2.2.2.2.2.1
      networkID e hfail hmsg, rfl⟩
  · intro subnet e hfail hmsg
    exact ⟨_, (stub_over_dispatcher_driver_error h).2.2.2.2.2.2.2.1
      subnet e hfail hmsg, rfl⟩
  · intro subnetID networkID e hfail hmsg
    exact ⟨_, (stub_over_dispatcher_driver_error h).2.2.2.2.2.2.2.2.1
      subnetID networkID e hfail hmsg, rfl⟩
  · intro subnet e hfail hmsg
    exact ⟨_, (stub_over_dispatcher_driver_error h).2.2.2.2.2.2.2.2.2.1
      subnet e hfail hmsg, rfl⟩
  · intro podName ns infra network runtime subnetID e hfail hmsg
    exact ⟨_, (stub_over_dispatcher_driver_error h).2.2.2.2.2.2.2.2.2.2.1
      podName ns infra network runtime subnetID e hfail hmsg, rfl⟩
  · intro podName ns infra network runtime e hfail hmsg
    exact ⟨_, (stub_over_dispatcher_driver_error h).2.2.2.2.2.2.2.2.2.2.2.1
      podName ns infra network runtime e hfail hmsg, rfl⟩
  · intro podName ns infra network runtime e hfail hmsg
    exact ⟨_, (stub_over_dispatcher_driver_error h).2.2.2.2.2.2.2.2.2.2.2.2
      podName ns infra network runtime e hfail hmsg, rfl⟩

/-- The round trip of an error message on the failing driver, whose `DeleteNetwork`
fails with `boom`: the stub's `DeleteNetwork` of `n1` returns an error with the message
`boom`. -/
theorem error_message_round_trip_witness :
    ∃ err : GoError,
      ((({ driver := failingDriver } : KubeHandler).stub).DeleteNetwork "n1").out
        = Outcome.returned (some err) ∧ err.Error = "boom" :=
  (error_message_round_trip { driver := failingDriver }).2.2.2.2.1
    "n1" (errors.New "boom") (by decide) rfl (by decide)

/-- C20: the error message of the driver is lost when the stub's `UpdateSubnet` is
called with a nil subnet. On the failing driver the dispatcher hands the nil subnet to
the driver's `UpdateSubnet`, which fails with `boom`; the transport succeeds and gives
the stub the response with `Error: boom`; the stub then formats `subnet.Name` in its
warning and panics, so it returns no error at all. -/
theorem UpdateSubnet_nil_subnet_loses_driver_error :
    failingDriver.UpdateSubnet none = some (errors.New "boom") ∧
    ({ driver := failingDriver } : KubeHandler).driverCalls
        ((({ driver := failingDriver } : KubeHandler).stub).UpdateSubnet none)
      = [DriverCall.UpdateSubnet none] ∧
    (({ driver := failingDriver } : KubeHandler).UpdateSubnet { Subnet := none }).out
      = Outcome.returned (({ Error := "boom" } : CommonResponse), none) ∧
    (({ driver := failingDriver } : KubeHandler).serve).subnets.UpdateSubnet { Subnet := none }
      = (some { Error := "boom" }, none) ∧
    ((({ driver := failingDriver } : KubeHandler).stub).UpdateSubnet none).out
      = Outcome.panicked ∧
    ¬ ∃ err : GoError,
      ((({ driver := failingDriver } : KubeHandler).stub).UpdateSubnet none).out
        = Outcome.returned (some err) := by
  refine ⟨rfl, rfl, rfl, rfl, rfl, ?_⟩
  rintro ⟨err, herr⟩
  have hpanic : ((({ driver := failingDriver } : KubeHandler).stub).UpdateSubnet none).out
      = Outcome.panicked := rfl
  rw [hpanic] at herr
  cases herr

/-- C21: through the stub and the dispatcher, `GetNetworkByID` with a non-empty id
reaches the driver's `GetNetworkByID` with that id and never the by-name lookup, and
`GetNetwork` with a non-empty name reaches the driver's `GetNetwork` with that name and
never the by-id lookup. In both cases what the stub returns over the connection to the
server is what that driver lookup answers on the caller's argument: its network, or the
error made of its message. -/
theorem lookup_routing_end_to_end (h : KubeHandler) :
    (∀ networkID, networkID ≠ "" →
      h.driverCalls (h.stub.GetNetworkByID networkID)
        = [DriverCall.GetNetworkByID networkID] ∧
      (∀ name, DriverCall.GetNetwork name ∉ h.driverCalls (h.stub.GetNetworkByID networkID)) ∧
      (h.stub.GetNetworkByID networkID).out
        = Outcome.returned
          (match (h.driver.GetNetworkByID networkID).2 with
            | some err =>
              if err.Error ≠ "" then (none, some (errors.New err.Error)) else (none, none)
            | none => ((h.driver.GetNetworkByID networkID).1, none))) ∧
    (∀ networkName, networkName ≠ "" →
      h.driverCalls (h.stub.GetNetwork networkName) = [DriverCall.GetNetwork networkName] ∧
      (∀ id, DriverCall.GetNetworkByID id ∉ h.driverCalls (h.stub.GetNetwork networkName)) ∧
      (h.stub.GetNetwork networkName).out
        = Outcome.returned
          (match (h.driver.GetNetwork networkName).2 with
            | some err =>
              if err.Error ≠ "" then (none, some (errors.New err.Error)) else (none, none)
            | none => ((h.driver.GetNetwork networkName).1, none))) := by
  refine ⟨?_, ?_⟩
  · intro networkID hid
    have hcalls : h.driverCalls (h.stub.GetNetworkByID networkID)
        = [DriverCall.GetNetworkByID networkID] := by
      simp [KubeHandler.driverCalls, NeutronProvider.GetNetworkByID, KubeHandler.handle,
        KubeHandler.GetNetwork, hid]
    refine ⟨hcalls, fun name => by simp [hcalls], ?_⟩
    simp only [NeutronProvider.GetNetworkByID, KubeHandler.stub, KubeHandler.serve,
      types.NewNetworksClient, roundTrip, KubeHandler.GetNetwork]
    cases hd : (h.driver.GetNetworkByID networkID).2 with
    | none => simp [hid, hd]
    | some err => by_cases hm : err.Error = "" <;> simp [hid, hd, hm]
  · intro networkName hname
    have hcalls : h.driverCalls (h.stub.GetNetwork networkName)
        = [DriverCall.GetNetwork networkName] := by
      simp [KubeHandler.driverCalls, NeutronProvider.GetNetwork, KubeHandler.handle,
        KubeHandler.GetNetwork, hname]
    refine ⟨hcalls, fun id => by simp [hcalls], ?_⟩
    simp only [NeutronProvider.GetNetwork, KubeHandler.stub, KubeHandler.serve,
      types.NewNetworksClient, roundTrip, KubeHandler.GetNetwork]
    cases hd : (h.driver.GetNetwork networkName).2 with
    | none => simp [hname, hd]
    | some err => by_cases hm : err.Error = "" <;> simp [hname, hd, hm]

/-- Witness of C21 on the sample driver, for the id `n-42` and for the name `blue`: each
lookup reaches its own driver method and the stub returns that method's network. -/
theorem lookup_routing_end_to_end_witness :
    (({ driver := sampleDriver } : KubeHandler).driverCalls
        ((({ driver := sampleDriver } : KubeHandler).stub).GetNetworkByID "n-42")
      = [DriverCall.GetNetworkByID "n-42"] ∧
     ((({ driver := sampleDriver } : KubeHandler).stub).GetNetworkByID "n-42").out
      = Outcome.returned (some { Uid := "n-42", Name := "by-id" }, none)) ∧
    (({ driver := sampleDriver } : KubeHandler).driverCalls
        ((({ driver := sampleDriver } : KubeHandler).stub).GetNetwork "blue")
      = [DriverCall.GetNetwork "blue"] ∧
     ((({ driver := sampleDriver } : KubeHandler).stub).GetNetwork "blue").out
      = Outcome.returned (some { Uid := "u1", Name := "blue" }, none)) :=
  ⟨⟨((lookup_routing_end_to_end { driver := sampleDriver }).1 "n-42" (by decide)).1,
      ((lookup_routing_end_to_end { driver := sampleDriver }).1 "n-42" (by decide)).2.2⟩,
    ⟨((lookup_routing_end_to_end { driver := sampleDriver }).2 "blue" (by decide)).1,
      ((lookup_routing_end_to_end { driver := sampleDriver }).2 "blue" (by decide)).2.2⟩⟩

/-- C22: the `Active` handler makes no driver call and returns `Result: true` next to a
nil error, for every request and every driver; two handlers over any two drivers give
the same run. -/
theorem Active_always_true :
    (∀ (h : KubeHandler) (req : ActiveRequest),
      (h.Active req).calls = [] ∧
      (h.Active req).out = Outcome.returned (({ Result := true } : ActivateResponse), none)) ∧
    (∀ (h₁ h₂ : KubeHandler) (req₁ req₂ : ActiveRequest), h₁.Active req₁ = h₂.Active req₂) :=
  ⟨fun _ _ => ⟨rfl, rfl⟩, fun _ _ _ _ => rfl⟩

/-- C23: for a `CreateNetwork`, `UpdateNetwork`, `CreateSubnet` or `CreateLoadBalancer`
request that carries its resource, the resource handed to the driver is the request's
resource with the tenant field replaced: every other field is the request's (identity,
subnets; owning network, CIDR, gateway; hosts, external addresses, virtual address), and
the affinity of `CreateLoadBalancer` is handed on as it came. -/
theorem tenant_normalization_frame (h : KubeHandler) :
    (∀ (req : CreateNetworkRequest) (network : Network), req.Network = some network →
      ∃ handed : Network,
        (h.CreateNetwork req).calls
          = [DriverCall.ToTenantID network.TenantID, DriverCall.CreateNetwork (some handed)] ∧
        handed.Uid = network.Uid ∧ handed.Name = network.Name ∧
        handed.Subnets = network.Subnets ∧
        handed = { network with TenantID := handed.TenantID }) ∧
    (∀ (req : UpdateNetworkRequest) (network : Network), req.Network = some network →
      ∃ handed : Network,
        (h.UpdateNetwork req).calls
          = [DriverCall.ToTenantID network.TenantID, DriverCall.UpdateNetwork (some handed)] ∧
        handed.Uid = network.Uid ∧ handed.Name = network.Name ∧
        handed.Subnets = network.Subnets ∧
        handed = { network with TenantID := handed.TenantID }) ∧
    (∀ (req : CreateSubnetRequest) (subnet : Subnet), req.Subnet = some subnet →
      ∃ handed : Subnet,
        (h.CreateSubnet req).calls
          = [DriverCall.ToTenantID subnet.Tenantid, DriverCall.CreateSubnet (some handed)] ∧
        handed.Uid = subnet.Uid ∧ handed.Name = subnet.Name ∧
        handed.NetworkID = subnet.NetworkID ∧ handed.Cidr = subnet.Cidr ∧
        handed.Gateway = subnet.Gateway ∧
        handed = { subnet with Tenantid := handed.Tenantid }) ∧
    (∀ (req : CreateLoadBalancerRequest) (lb : LoadBalancer), req.LoadBalancer = some lb →
      ∃ handed : LoadBalancer,
        (h.CreateLoadBalancer req).calls
          = [DriverCall.ToTenantID lb.TenantID,
              DriverCall.CreateLoadBalancer (some handed) req.Affinity] ∧
        handed.Name = lb.Name ∧ handed.Hosts = lb.Hosts ∧
        handed.ExternalIPs = lb.ExternalIPs ∧ handed.Vip = lb.Vip ∧
        handed = { lb with TenantID := handed.TenantID }) := by
  refine ⟨?_, ?_, ?_, ?_⟩
  · intro req network hreq
    exact ⟨{ network with TenantID := h.driver.ToTenantID network.TenantID },
      by simp [KubeHandler.CreateNetwork, hreq], rfl, rfl, rfl, rfl⟩
  · intro req network hreq
    exact ⟨{ network with TenantID := h.driver.ToTenantID network.TenantID },
      by simp [KubeHandler.UpdateNetwork, hreq], rfl, rfl, rfl, rfl⟩
  · intro req subnet hreq
    exact ⟨{ subnet with Tenantid := h.driver.ToTenantID subnet.Tenantid },
      by simp [KubeHandler.CreateSubnet, hreq], rfl, rfl, rfl, rfl, rfl, rfl⟩
  · intro req lb hreq
    exact ⟨{ lb with TenantID := h.driver.ToTenantID lb.TenantID },
      by simp [KubeHandler.CreateLoadBalancer, hreq], rfl, rfl, rfl, rfl, rfl⟩

/-- Witness of C23 on the sample driver: the subnet `sub1` of tenant `t1`, with its
CIDR and gateway, reaches the driver's `CreateSubnet` with the same fields next to the
rewritten tenant. -/
theorem tenant_normalization_frame_witness :
    ∃ handed : Subnet,
      (({ driver := sampleDriver } : KubeHandler).CreateSubnet
          { Subnet := some { Uid := "s1", Name := "sub1", NetworkID := "n1",
                             Cidr := "192.168.6.0/24", Gateway := "192.168.6.1",
                             Tenantid := "t1" } }).calls
        = [DriverCall.ToTenantID "t1", DriverCall.CreateSubnet (some handed)] ∧
      handed.Uid = "s1" ∧ handed.Name = "sub1" ∧ handed.NetworkID = "n1" ∧
      handed.Cidr = "192.168.6.0/24" ∧ handed.Gateway = "192.168.6.1" :=
  have key := (tenant_normalization_frame { driver := sampleDriver }).2.2.1
    { Subnet := some { Uid := "s1", Name := "sub1", NetworkID := "n1",
                       Cidr := "192.168.6.0/24", Gateway := "192.168.6.1",
                       Tenantid := "t1" } }
    { Uid := "s1", Name := "sub1", NetworkID := "n1", Cidr := "192.168.6.0/24",
      Gateway := "192.168.6.1", Tenantid := "t1" } rfl
  key.elim fun handed hk => ⟨handed, hk.1, hk.2.1, hk.2.2.1, hk.2.2.2.1, hk.2.2.2.2.1,
    hk.2.2.2.2.2.1⟩

/-- C24: the two versions of the stub agree. Over the same connection both versions of
`InitNeutronProviders` make the same remote calls and end the same way: the same error,
and stubs that hold the same clients (`toRoot`). For the twelve methods that both files
define, the two stubs over the same clients run identically, for every argument and
every behaviour of the transport: the same remote calls with the same requests, and the
same result and error (or the same panic). -/
theorem stub_versions_agree :
    (∀ (dial : String → Option ClientConn × error) (remoteAddr : String),
      (RootClient.InitNeutronProviders dial remoteAddr).calls
        = (InitNeutronProviders dial remoteAddr).calls ∧
      (RootClient.InitNeutronProviders dial remoteAddr).out
        = (match (InitNeutronProviders dial remoteAddr).out with
          | Outcome.returned (provider, err) =>
            Outcome.returned (provider.map NeutronProvider.toRoot, err)
          | Outcome.panicked => Outcome.panicked)) ∧
    (∀ (r : NeutronProvider),
      (∀ networkName, r.toRoot.GetNetwork networkName = r.GetNetwork networkName) ∧
      (∀ networkID, r.toRoot.GetNetworkByID networkID = r.GetNetworkByID networkID) ∧
      (∀ network, r.toRoot.CreateNetwork network = r.CreateNetwork network) ∧
      (∀ network, r.toRoot.UpdateNetwork network = r.UpdateNetwork network) ∧
      (∀ networkID, r.toRoot.DeleteNetwork networkID = r.DeleteNetwork networkID) ∧
      (∀ networkID, r.toRoot.ListSubnets networkID = r.ListSubnets networkID) ∧
      (∀ subnet, r.toRoot.CreateSubnet subnet = r.CreateSubnet subnet) ∧
      (∀ subnetID networkID,
        r.toRoot.DeleteSubnet subnetID networkID = r.DeleteSubnet subnetID networkID) ∧
      (∀ subnet, r.toRoot.UpdateSubnet subnet = r.UpdateSubnet subnet) ∧
      (∀ podName ns infra network runtime subnetID,
        r.toRoot.SetupPod podName ns infra network runtime subnetID
          = r.SetupPod podName ns infra network runtime subnetID) ∧
      (∀ podName ns infra network runtime,
        r.toRoot.TeardownPod podName ns infra network runtime
          = r.TeardownPod podName ns infra network runtime) ∧
      (∀ podName ns infra network runtime,
        r.toRoot.PodStatus podName ns infra network runtime
          = r.PodStatus podName ns infra network runtime)) := by
  refine ⟨?_, fun r => ⟨fun _ => rfl, fun _ => rfl, fun _ => rfl, fun _ => rfl, fun _ => rfl,
    fun _ => rfl, fun _ => rfl, fun _ _ => rfl, fun _ => rfl, fun _ _ _ _ _ _ => rfl,
    fun _ _ _ _ _ => rfl, fun _ _ _ _ _ => rfl⟩⟩
  intro dial remoteAddr
  unfold RootClient.InitNeutronProviders InitNeutronProviders
  split
  · exact ⟨rfl, rfl⟩
  · exact ⟨rfl, rfl⟩
  · refine ⟨rfl, ?_⟩
    simp only []
    split
    · rfl
    · rfl
    · split <;> rfl

end Kubestack
